import Mathlib

/-!
Verification of the layered window-manager state engine.

This file shallowly embeds the core data model and operations of the
tiling/floating window manager (the `cplwm` assignment crates) in Lean:

* `api/src/types.rs`       — `Geometry`, `Screen`, `WindowWithInfo`,
                             `WindowLayout`, `FloatOrTile`, `PrevOrNext`
* `assignment/src/wm_error.rs`            — `WMError`
* `assignment/src/b_tiling_wm.rs`         — `TilingWM`
* `assignment/src/c_floating_windows.rs`  — `FloatingWM`
* `assignment/src/d_minimising_windows.rs`— `MinimiseWM`
* `assignment/src/e_fullscreen_windows.rs`— `FullWM`
* `assignment/src/f_gaps.rs`              — `GapsWM`
* `assignment/src/g_multiple_workspaces.rs`— `MultiWorkspaceWM`

Modelling conventions:

* Rust `VecDeque`/`Vec` become `List` (front = head, back = last).
* Rust `HashMap` becomes an association list `List (k × v)`; only key
  lookup/insert/remove and the key set are ever used by the code under
  verification, so iteration order of the Rust hash map is immaterial to
  every property proved here.
* `c_uint`/`usize` become `Nat`, `c_int` becomes `Int`.  The window-manager
  arithmetic (halving a screen, dividing a stack, adding a gap) never
  approaches the `u32`/`i32` bounds in the claims considered, so wrap-around
  is not modelled; `u32` subtraction in the gap layer is used only under the
  documented precondition that the result stays positive.
* A Rust method that can `panic!` (an `unwrap` that can fail) is embedded
  with result type `Option _`, where `none` means the panic.  A method
  returning `Result<(), WMError>` is embedded as returning the new state
  paired with `Except WMError Unit` (Rust methods mutate `self`; on `Err`
  the embedded function returns the state as the code left it).
* The mutually recursive operation groups (`MinimiseWM::focus_window` ↔
  `MinimiseWM::toggle_minimised`, `FullWM::focus_window` ↔
  `FullWM::toggle_fullscreen`, `MultiWorkspaceWM::switch_workspace` ↔
  `MultiWorkspaceWM::toggle_fullscreen`) are embedded with an explicit fuel
  parameter; `none` on fuel exhaustion.  All theorems either quantify over
  the fuel or use a fuel large enough for the call depth of the scenario.
-/

/-- A window is an opaque numeric identifier (`pub type Window = c_ulong`). -/
abbrev Window := Nat

/-- Geometry of a window: position and size (`api/src/types.rs`). -/
structure Geometry where
  x : Int
  y : Int
  width : Nat
  height : Nat
deriving DecidableEq, Repr

/-- A screen, defined by its width and height (`api/src/types.rs`). -/
structure Screen where
  width : Nat
  height : Nat
deriving DecidableEq, Repr

/-- `Screen::to_geometry`: full-screen rectangle at the origin. -/
def Screen.to_geometry (s : Screen) : Geometry :=
  { x := 0, y := 0, width := s.width, height := s.height }

/-- `FloatOrTile` from `api/src/types.rs`. -/
inductive FloatOrTile where
  | Float : FloatOrTile
  | Tile : FloatOrTile
deriving DecidableEq, Repr

/-- `WindowWithInfo` from `api/src/types.rs`. -/
structure WindowWithInfo where
  window : Window
  geometry : Geometry
  float_or_tile : FloatOrTile
  fullscreen : Bool
deriving DecidableEq, Repr

/-- `WindowWithInfo::new_tiled`. -/
def WindowWithInfo.new_tiled (w : Window) (g : Geometry) : WindowWithInfo :=
  { window := w, geometry := g, float_or_tile := FloatOrTile.Tile, fullscreen := false }

/-- `WindowWithInfo::new_float`. -/
def WindowWithInfo.new_float (w : Window) (g : Geometry) : WindowWithInfo :=
  { window := w, geometry := g, float_or_tile := FloatOrTile.Float, fullscreen := false }

/-- `WindowWithInfo::new_fullscreen`. -/
def WindowWithInfo.new_fullscreen (w : Window) (g : Geometry) : WindowWithInfo :=
  { window := w, geometry := g, float_or_tile := FloatOrTile.Tile, fullscreen := true }

/-- `WindowLayout` from `api/src/types.rs`: the externally visible layout. -/
structure WindowLayout where
  focused_window : Option Window
  windows : List (Window × Geometry)
deriving DecidableEq, Repr

/-- `WindowLayout::new`: the empty layout. -/
def WindowLayout.new : WindowLayout :=
  { focused_window := none, windows := [] }

/-- `PrevOrNext` from `api/src/types.rs`. -/
inductive PrevOrNext where
  | Prev : PrevOrNext
  | Next : PrevOrNext
deriving DecidableEq, Repr

/-- `PrevOrNext::opposite`. -/
def PrevOrNext.opposite : PrevOrNext → PrevOrNext
  | PrevOrNext.Prev => PrevOrNext.Next
  | PrevOrNext.Next => PrevOrNext.Prev

/-- `WMError` from `assignment/src/wm_error.rs`. -/
inductive WMError where
  | UnknownWindow : Window → WMError
  | AlreadyManagedWindow : Window → WMError
  | WorkspaceIndexNotValid : Nat → WMError
deriving DecidableEq, Repr

/-- `MAX_WORKSPACE_INDEX` from `api/src/types.rs` (there are `MAX+1 = 4` workspaces). -/
def MAX_WORKSPACE_INDEX : Nat := 3

/-- Lookup in a `HashMap` modelled as an association list (`HashMap::get`). -/
def mapGet {α : Type} (m : List (Window × α)) (k : Window) : Option α :=
  (m.find? (fun p => p.1 == k)).map (fun p => p.2)

/-- `HashMap::insert`: replace the binding if the key is present, else append. -/
def mapInsert {α : Type} (m : List (Window × α)) (k : Window) (v : α) :
    List (Window × α) :=
  if (m.find? (fun p => p.1 == k)).isSome then
    m.map (fun p => if p.1 == k then (k, v) else p)
  else
    m ++ [(k, v)]

/-- `HashMap::remove`: delete the binding of the key, if present. -/
def mapRemove {α : Type} (m : List (Window × α)) (k : Window) : List (Window × α) :=
  m.filter (fun p => p.1 != k)

/-- `Vec::swap i j` (both indices are always in range where the code uses it;
out of range we return the list unchanged, the Rust code would panic but no
embedded operation reaches that case under its guards). -/
def swapNth {α : Type} (l : List α) (i j : Nat) : List α :=
  match l[i]?, l[j]? with
  | some a, some b => (l.set i b).set j a
  | _, _ => l

/-! ## Tiling engine (`assignment/src/b_tiling_wm.rs`) -/

/-- The `TilingWM` struct: `windows` is the focus order (back = focused),
`tiles` the tile order (front = master), `windows_info` the per-window
records, `is_focus` whether any window is focused. -/
structure TilingWM where
  windows : List Window
  windows_info : List (Window × WindowWithInfo)
  tiles : List Window
  screen : Screen
  is_focus : Bool
deriving DecidableEq, Repr

/-- `TilingWM::new`. -/
def TilingWM.new (screen : Screen) : TilingWM :=
  { windows := [], windows_info := [], tiles := [], screen := screen, is_focus := false }

/-- `TilingWM::get_windows`: the `windows` deque as a `Vec`. -/
def TilingWM.get_windows (wm : TilingWM) : List Window :=
  wm.windows

/-- `WindowManager::is_managed` (trait default): `get_windows().contains(&window)`. -/
def TilingWM.is_managed (wm : TilingWM) (w : Window) : Bool :=
  wm.get_windows.contains w

/-- `TilingWM::get_focused_window`: back of `windows` when `is_focus` is set. -/
def TilingWM.get_focused_window (wm : TilingWM) : Option Window :=
  if wm.is_focus then wm.windows.getLast? else none

/-- `TilingWM::add_window`: push onto `windows` (and onto `tiles` when tiled),
record the info, focus; error when already managed. -/
def TilingWM.add_window (wm : TilingWM) (wwi : WindowWithInfo) :
    TilingWM × Except WMError Unit :=
  if !(wm.is_managed wwi.window) then
    ({ wm with
        windows := wm.windows ++ [wwi.window]
        windows_info := mapInsert wm.windows_info wwi.window wwi
        tiles := if wwi.float_or_tile = FloatOrTile.Tile then wm.tiles ++ [wwi.window]
                 else wm.tiles
        is_focus := true }, Except.ok ())
  else
    (wm, Except.error (WMError.AlreadyManagedWindow wwi.window))

/-- `TilingWM::remove_window`.  The Rust code finds the window's position in
`windows` (`UnknownWindow` if absent), unwraps its info record (panic when the
record is missing), and removes the first occurrence from `windows` (and from
`tiles` when tiled; when `windows` becomes empty it instead pops the front of
`tiles` and clears the focus flag).  `position + remove` of the first match is
`List.erase`. -/
def TilingWM.remove_window (wm : TilingWM) (w : Window) :
    Option (TilingWM × Except WMError Unit) :=
  if !(wm.windows.contains w) then
    some (wm, Except.error (WMError.UnknownWindow w))
  else
    match mapGet wm.windows_info w with
    | none => none
    | some info =>
      if info.float_or_tile = FloatOrTile.Float then
        some ({ wm with
                  windows := wm.windows.erase w
                  windows_info := mapRemove wm.windows_info w }, Except.ok ())
      else
        let windows' := wm.windows.erase w
        if windows'.isEmpty then
          some ({ wm with
                    windows := windows'
                    windows_info := mapRemove wm.windows_info w
                    tiles := wm.tiles.eraseIdx 0
                    is_focus := false }, Except.ok ())
        else
          if wm.tiles.contains w then
            some ({ wm with
                      windows := windows'
                      windows_info := mapRemove wm.windows_info w
                      tiles := wm.tiles.erase w }, Except.ok ())
          else
            none

/-- The stacked-tiles loop of `TilingWM::get_window_layout`: starting from the
mutable `geometry` value, each iteration first does `geometry.y += height` and
then pushes `(tiles[i], geometry)`. -/
def tileStack (ts : List Window) (g : Geometry) (height : Nat) :
    List (Window × Geometry) :=
  match ts with
  | [] => []
  | t :: rest =>
    let g' := { g with y := g.y + (height : Int) }
    (t, g') :: tileStack rest g' height

/-- `TilingWM::get_window_layout`: empty when no window; one tile is
fullscreen; with `n ≥ 2` tiles the master takes the left half and the loop
stacks the rest on the right half (`geometry.y` starts at `-height` so that
the first iteration lands at `0`). -/
def TilingWM.get_window_layout (wm : TilingWM) : WindowLayout :=
  let fullscreen_geometry := wm.screen.to_geometry
  match wm.windows.getLast? with
  | some w =>
    let focused := if wm.is_focus then some w else none
    match wm.tiles with
    | [] => { focused_window := focused, windows := [] }
    | [t] => { focused_window := focused, windows := [(t, fullscreen_geometry)] }
    | t0 :: rest =>
      let g0 : Geometry :=
        { x := 0, y := 0, width := fullscreen_geometry.width / 2,
          height := fullscreen_geometry.height }
      let height := fullscreen_geometry.height / rest.length
      let g1 : Geometry :=
        { g0 with x := (g0.width : Int), height := height, y := g0.y - (height : Int) }
      { focused_window := focused, windows := (t0, g0) :: tileStack rest g1 height }
  | none => WindowLayout.new

/-- `TilingWM::focus_window`: `None` clears the focus flag; `Some w` moves the
first occurrence of `w` to the back of `windows` (`UnknownWindow` if absent).
`position + remove + push_back` of the first match is `erase` + append. -/
def TilingWM.focus_window (wm : TilingWM) (window : Option Window) :
    TilingWM × Except WMError Unit :=
  match window with
  | none => ({ wm with is_focus := false }, Except.ok ())
  | some w =>
    if wm.windows.contains w then
      ({ wm with is_focus := true, windows := wm.windows.erase w ++ [w] },
       Except.ok ())
    else
      (wm, Except.error (WMError.UnknownWindow w))

/-- `TilingWM::cycle_focus`: no-op on `0` windows; `1` window just sets the
focus flag; `2` windows swap; otherwise rotate `windows` circularly. -/
def TilingWM.cycle_focus (wm : TilingWM) (dir : PrevOrNext) : TilingWM :=
  match wm.windows.length with
  | 0 => wm
  | 1 => { wm with is_focus := true }
  | 2 => { wm with windows := swapNth wm.windows 0 1, is_focus := true }
  | _ + 3 =>
    let windows' :=
      match dir with
      | PrevOrNext.Prev => wm.windows.getLast?.toList ++ wm.windows.dropLast
      | PrevOrNext.Next =>
        match wm.windows with
        | [] => []
        | h :: t => t ++ [h]
    { wm with windows := windows', is_focus := true }

/-- `TilingWM::get_window_info`: `UnknownWindow` when unmanaged; otherwise the
code looks the window up in `get_window_layout().windows` and unwraps — a
panic (`none`) when the window has no tile in the layout. -/
def TilingWM.get_window_info (wm : TilingWM) (w : Window) :
    Option (Except WMError WindowWithInfo) :=
  if !(wm.windows.contains w) then
    some (Except.error (WMError.UnknownWindow w))
  else
    let layout := wm.get_window_layout.windows
    match layout.find? (fun p => p.1 == w) with
    | none => none
    | some p => some (Except.ok (WindowWithInfo.new_tiled w p.2))

/-- `TilingWM::get_screen`. -/
def TilingWM.get_screen (wm : TilingWM) : Screen :=
  wm.screen

/-- `TilingWM::resize_screen`. -/
def TilingWM.resize_screen (wm : TilingWM) (screen : Screen) : TilingWM :=
  { wm with screen := screen }

/-- `TilingWM::get_master_window`: front of `tiles`. -/
def TilingWM.get_master_window (wm : TilingWM) : Option Window :=
  wm.tiles.head?

/-- `TilingWM::swap_with_master`: error when unmanaged; no-op when the window
is not a tile; otherwise swap it with index 0 of `tiles` and focus it (the
inner `focus_window(...).unwrap()` cannot fail because the window is managed,
but we keep the panic case as `none`). -/
def TilingWM.swap_with_master (wm : TilingWM) (w : Window) :
    Option (TilingWM × Except WMError Unit) :=
  if !(wm.is_managed w) then
    some (wm, Except.error (WMError.UnknownWindow w))
  else
    match wm.tiles.findIdx? (fun t => t == w) with
    | none => some (wm, Except.ok ())
    | some i =>
      let wm' := { wm with tiles := swapNth wm.tiles 0 i }
      match wm'.focus_window (some w) with
      | (wm'', Except.ok _) => some (wm'', Except.ok ())
      | (_, Except.error _) => none

/-- `TilingWM::swap_windows`: no-op without focus; exactly two tiles are
swapped outright; otherwise the tile holding the focused window is swapped
with its circular neighbour (the code unwraps `windows.back()` and the tile
position of the focused window — `none` models those panics). -/
def TilingWM.swap_windows (wm : TilingWM) (dir : PrevOrNext) : Option TilingWM :=
  if !wm.is_focus then
    some wm
  else
    let len := wm.tiles.length
    if len = 2 then
      some { wm with tiles := swapNth wm.tiles 0 1 }
    else
      match wm.windows.getLast? with
      | none => none
      | some f =>
        match wm.tiles.findIdx? (fun t => t == f) with
        | none => none
        | some i =>
          match dir with
          | PrevOrNext.Prev =>
            if i = 0 then some { wm with tiles := swapNth wm.tiles i (len - 1) }
            else if i = 1 then some { wm with tiles := swapNth wm.tiles 0 1 }
            else some { wm with tiles := swapNth wm.tiles i (i - 1) }
          | PrevOrNext.Next =>
            some { wm with tiles := swapNth wm.tiles i ((i + 1) % len) }

/-! ## Float layer (`assignment/src/c_floating_windows.rs`) -/

/-- The `FloatingWM` struct: wraps `TilingWM`, plus the `floats` map from
floating window to its geometry. -/
structure FloatingWM where
  tiling_wm : TilingWM
  floats : List (Window × Geometry)
deriving DecidableEq, Repr

/-- `FloatingWM::new`. -/
def FloatingWM.new (screen : Screen) : FloatingWM :=
  { tiling_wm := TilingWM.new screen, floats := [] }

/-- `FloatingWM::get_windows`. -/
def FloatingWM.get_windows (wm : FloatingWM) : List Window :=
  wm.tiling_wm.get_windows

/-- `is_managed` trait default for `FloatingWM`. -/
def FloatingWM.is_managed (wm : FloatingWM) (w : Window) : Bool :=
  wm.get_windows.contains w

/-- `FloatingWM::get_focused_window`. -/
def FloatingWM.get_focused_window (wm : FloatingWM) : Option Window :=
  wm.tiling_wm.get_focused_window

/-- `FloatingWM::get_floating_windows`: the keys of the `floats` map. -/
def FloatingWM.get_floating_windows (wm : FloatingWM) : List Window :=
  wm.floats.map (fun p => p.1)

/-- `FloatSupport::is_floating` (trait default):
`get_floating_windows().contains(&window)`. -/
def FloatingWM.is_floating (wm : FloatingWM) (w : Window) : Bool :=
  wm.get_floating_windows.contains w

/-- `FloatingWM::add_window`: delegate to the tiling add (`try!` propagates
the error); when the window is a float also record it in `floats`. -/
def FloatingWM.add_window (wm : FloatingWM) (wwi : WindowWithInfo) :
    FloatingWM × Except WMError Unit :=
  match wm.tiling_wm.add_window wwi with
  | (t', Except.error e) => ({ wm with tiling_wm := t' }, Except.error e)
  | (t', Except.ok _) =>
    if wwi.float_or_tile = FloatOrTile.Float then
      ({ tiling_wm := t', floats := mapInsert wm.floats wwi.window wwi.geometry },
       Except.ok ())
    else
      ({ wm with tiling_wm := t' }, Except.ok ())

/-- `FloatingWM::remove_window`: delegate to the tiling remove; when the
window was a float, the code purges it from `floats` — except that when the
removed window was the last managed window it removes the hard-coded key `0`
(`let w = 0 as u64; self.floats.remove(&w);`) and clears the focus flag,
leaving the actual window's entry in `floats`. -/
def FloatingWM.remove_window (wm : FloatingWM) (w : Window) :
    Option (FloatingWM × Except WMError Unit) :=
  match wm.tiling_wm.remove_window w with
  | none => none
  | some (t', Except.error e) => some ({ wm with tiling_wm := t' }, Except.error e)
  | some (t', Except.ok _) =>
    if (wm.floats.find? (fun p => p.1 == w)).isSome then
      if t'.windows.isEmpty then
        some ({ tiling_wm := { t' with is_focus := false },
                floats := mapRemove wm.floats 0 }, Except.ok ())
      else
        some ({ tiling_wm := t', floats := mapRemove wm.floats w }, Except.ok ())
    else
      some ({ wm with tiling_wm := t' }, Except.ok ())

/-- `FloatingWM::get_window_layout`: the tiling layout followed by
`(w, floats[w])` for every floating window in focus order (the `geom.is_some()`
check makes minimised floats, absent from the map, contribute nothing). -/
def FloatingWM.get_window_layout (wm : FloatingWM) : WindowLayout :=
  let layout := wm.tiling_wm.get_window_layout
  { layout with
      windows := layout.windows ++
        wm.tiling_wm.windows.filterMap (fun w =>
          if wm.is_floating w then (mapGet wm.floats w).map (fun g => (w, g))
          else none) }

/-- `FloatingWM::focus_window`: delegate. -/
def FloatingWM.focus_window (wm : FloatingWM) (window : Option Window) :
    FloatingWM × Except WMError Unit :=
  let (t', r) := wm.tiling_wm.focus_window window
  ({ wm with tiling_wm := t' }, r)

/-- `FloatingWM::cycle_focus`: delegate. -/
def FloatingWM.cycle_focus (wm : FloatingWM) (dir : PrevOrNext) : FloatingWM :=
  { wm with tiling_wm := wm.tiling_wm.cycle_focus dir }

/-- `FloatingWM::get_window_info`: `UnknownWindow` when the info record is
absent; for a `Float` record the code delegates to the tiling
`get_window_info` (whose layout lookup then fails and panics — `none`), for a
`Tile` record it returns the stored record. -/
def FloatingWM.get_window_info (wm : FloatingWM) (w : Window) :
    Option (Except WMError WindowWithInfo) :=
  match mapGet wm.tiling_wm.windows_info w with
  | none => some (Except.error (WMError.UnknownWindow w))
  | some info =>
    match info.float_or_tile with
    | FloatOrTile.Float => wm.tiling_wm.get_window_info w
    | FloatOrTile.Tile => some (Except.ok info)

/-- `FloatingWM::get_screen`. -/
def FloatingWM.get_screen (wm : FloatingWM) : Screen :=
  wm.tiling_wm.get_screen

/-- `FloatingWM::resize_screen`. -/
def FloatingWM.resize_screen (wm : FloatingWM) (screen : Screen) : FloatingWM :=
  { wm with tiling_wm := wm.tiling_wm.resize_screen screen }

/-- `FloatingWM::get_master_window`. -/
def FloatingWM.get_master_window (wm : FloatingWM) : Option Window :=
  wm.tiling_wm.get_master_window

/-- `FloatingWM::swap_with_master`: delegate. -/
def FloatingWM.swap_with_master (wm : FloatingWM) (w : Window) :
    Option (FloatingWM × Except WMError Unit) :=
  match wm.tiling_wm.swap_with_master w with
  | none => none
  | some (t', r) => some ({ wm with tiling_wm := t' }, r)

/-- `FloatingWM::swap_windows`: when focused, unwrap the focused window and
its info (both unwraps can panic) and delegate only when it is a tile. -/
def FloatingWM.swap_windows (wm : FloatingWM) (dir : PrevOrNext) :
    Option FloatingWM :=
  if wm.tiling_wm.is_focus then
    match wm.get_focused_window with
    | none => none
    | some f =>
      match wm.get_window_info f with
      | none => none
      | some (Except.error _) => none
      | some (Except.ok info) =>
        match info.float_or_tile with
        | FloatOrTile.Float => some wm
        | FloatOrTile.Tile =>
          match wm.tiling_wm.swap_windows dir with
          | none => none
          | some t' => some { wm with tiling_wm := t' }
  else
    some wm

/-- `FloatingWM::toggle_floating`: `UnknownWindow` when unmanaged; a float
sinks back into `tiles` (record flipped to `Tile`), a tile is removed from
`tiles` (the position unwrap panics if it is not there) and enters `floats`
with its recorded geometry (record flipped to `Float`). -/
def FloatingWM.toggle_floating (wm : FloatingWM) (w : Window) :
    Option (FloatingWM × Except WMError Unit) :=
  match mapGet wm.tiling_wm.windows_info w with
  | none => some (wm, Except.error (WMError.UnknownWindow w))
  | some info =>
    match info.float_or_tile with
    | FloatOrTile.Float =>
      some ({ tiling_wm :=
                { wm.tiling_wm with
                    tiles := wm.tiling_wm.tiles ++ [w]
                    windows_info := mapInsert wm.tiling_wm.windows_info w
                      { info with float_or_tile := FloatOrTile.Tile } }
              floats := mapRemove wm.floats w }, Except.ok ())
    | FloatOrTile.Tile =>
      if wm.tiling_wm.tiles.contains w then
        some ({ tiling_wm :=
                  { wm.tiling_wm with
                      tiles := wm.tiling_wm.tiles.erase w
                      windows_info := mapInsert wm.tiling_wm.windows_info w
                        { info with float_or_tile := FloatOrTile.Float } }
                floats := mapInsert wm.floats w info.geometry }, Except.ok ())
      else
        none

/-- `FloatingWM::set_window_geometry`: `UnknownWindow` when unmanaged; when
the window is floating update both the record and `floats`; otherwise a
silent no-op. -/
def FloatingWM.set_window_geometry (wm : FloatingWM) (w : Window)
    (new_geometry : Geometry) : FloatingWM × Except WMError Unit :=
  match mapGet wm.tiling_wm.windows_info w with
  | none => (wm, Except.error (WMError.UnknownWindow w))
  | some info =>
    if (wm.floats.find? (fun p => p.1 == w)).isSome then
      ({ tiling_wm :=
           { wm.tiling_wm with
               windows_info := mapInsert wm.tiling_wm.windows_info w
                 { info with geometry := new_geometry } }
         floats := mapInsert wm.floats w new_geometry }, Except.ok ())
    else
      (wm, Except.ok ())

/-! ## Minimise layer (`assignment/src/d_minimising_windows.rs`)

`MinimiseWM::focus_window` and `MinimiseWM::toggle_minimised` call each other
(focusing a minimised window unminimises it; (un)minimising refocuses), so
both take an explicit fuel argument; `none` also covers fuel exhaustion. -/

/-- The `MinimiseWM` struct: wraps `FloatingWM`, plus the ordered `Vec` of
minimised windows (oldest first). -/
structure MinimiseWM where
  floating_wm : FloatingWM
  minimised : List Window
deriving DecidableEq, Repr

/-- `MinimiseWM::new`. -/
def MinimiseWM.new (screen : Screen) : MinimiseWM :=
  { floating_wm := FloatingWM.new screen, minimised := [] }

/-- `MinimiseWM::get_windows`. -/
def MinimiseWM.get_windows (wm : MinimiseWM) : List Window :=
  wm.floating_wm.get_windows

/-- `is_managed` trait default for `MinimiseWM`. -/
def MinimiseWM.is_managed (wm : MinimiseWM) (w : Window) : Bool :=
  wm.get_windows.contains w

/-- `MinimiseWM::get_focused_window`. -/
def MinimiseWM.get_focused_window (wm : MinimiseWM) : Option Window :=
  wm.floating_wm.get_focused_window

/-- `MinimiseWM::get_minimised_windows`: the `minimised` vector verbatim. -/
def MinimiseWM.get_minimised_windows (wm : MinimiseWM) : List Window :=
  wm.minimised

/-- `MinimiseSupport::is_minimised` (trait default). -/
def MinimiseWM.is_minimised (wm : MinimiseWM) (w : Window) : Bool :=
  wm.get_minimised_windows.contains w

/-- `MinimiseWM::add_window`: delegate. -/
def MinimiseWM.add_window (wm : MinimiseWM) (wwi : WindowWithInfo) :
    MinimiseWM × Except WMError Unit :=
  let (f', r) := wm.floating_wm.add_window wwi
  ({ wm with floating_wm := f' }, r)

/-- `MinimiseWM::get_window_layout`: delegate. -/
def MinimiseWM.get_window_layout (wm : MinimiseWM) : WindowLayout :=
  wm.floating_wm.get_window_layout

/-- `MinimiseWM::get_window_info`: `UnknownWindow` when unmanaged, otherwise
the stored record (`windows_info.get(&window).unwrap()`, panic when the
record is missing). -/
def MinimiseWM.get_window_info (wm : MinimiseWM) (w : Window) :
    Option (Except WMError WindowWithInfo) :=
  if !(wm.is_managed w) then
    some (Except.error (WMError.UnknownWindow w))
  else
    match mapGet wm.floating_wm.tiling_wm.windows_info w with
    | none => none
    | some info => some (Except.ok info)

/-- `MinimiseWM::get_screen`. -/
def MinimiseWM.get_screen (wm : MinimiseWM) : Screen :=
  wm.floating_wm.get_screen

/-- `MinimiseWM::resize_screen`. -/
def MinimiseWM.resize_screen (wm : MinimiseWM) (screen : Screen) : MinimiseWM :=
  { wm with floating_wm := wm.floating_wm.resize_screen screen }

mutual

/-- `MinimiseWM::focus_window` (fuelled): a managed minimised window is first
unminimised (result unwrapped), then the call is delegated to the float
layer. -/
def MinimiseWM.focus_windowF : Nat → MinimiseWM → Option Window →
    Option (MinimiseWM × Except WMError Unit)
  | 0, _, _ => none
  | fuel + 1, wm, window =>
    let cont : MinimiseWM → Option (MinimiseWM × Except WMError Unit) := fun wm' =>
      let (f', r) := wm'.floating_wm.focus_window window
      some ({ wm' with floating_wm := f' }, r)
    match window with
    | some w =>
      if wm.is_managed w && wm.is_minimised w then
        match MinimiseWM.toggle_minimisedF fuel wm w with
        | some (wm', Except.ok _) => cont wm'
        | _ => none
      else
        cont wm
    | none => cont wm

/-- `MinimiseWM::toggle_minimised` (fuelled): unminimising reinserts the
window into the tile stack or float map per its recorded kind, removes it
from `minimised` and focuses it; minimising appends it to `minimised`,
removes it from the live structures and, when it was focused, refocuses the
nearest preceding non-minimised window (scanning `get_windows()` minus its
last element in reverse) or clears the focus when none remain. -/
def MinimiseWM.toggle_minimisedF : Nat → MinimiseWM → Window →
    Option (MinimiseWM × Except WMError Unit)
  | 0, _, _ => none
  | fuel + 1, wm, w =>
    if !(wm.is_managed w) then
      some (wm, Except.error (WMError.UnknownWindow w))
    else
      match wm.get_window_info w with
      | none => none
      | some (Except.error _) => none
      | some (Except.ok info) =>
        if wm.is_minimised w then
          let fwm := wm.floating_wm
          let fwm' :=
            match info.float_or_tile with
            | FloatOrTile.Float =>
              { fwm with floats := mapInsert fwm.floats info.window info.geometry }
            | FloatOrTile.Tile =>
              { fwm with tiling_wm :=
                  { fwm.tiling_wm with
                      tiles := fwm.tiling_wm.tiles ++ [info.window] } }
          let wm' : MinimiseWM :=
            { floating_wm := fwm', minimised := wm.minimised.erase w }
          match MinimiseWM.focus_windowF fuel wm' (some w) with
          | some (wm'', Except.ok _) => some (wm'', Except.ok ())
          | _ => none
        else
          let wm1 : MinimiseWM := { wm with minimised := wm.minimised ++ [w] }
          let refocus : MinimiseWM → Option (MinimiseWM × Except WMError Unit) :=
            fun wm2 =>
            let focus := wm2.get_focused_window
            if focus = none || focus != some w then
              some (wm2, Except.ok ())
            else
              if wm2.get_windows.length < wm2.minimised.length then
                none
              else
                let len := wm2.get_windows.length - wm2.minimised.length
                if len = 0 then
                  match MinimiseWM.focus_windowF fuel wm2 none with
                  | some (wm3, Except.ok _) => some (wm3, Except.ok ())
                  | _ => none
                else
                  let windows := wm2.get_windows
                  match windows.dropLast.reverse.find?
                      (fun v => !(wm2.minimised.contains v)) with
                  | some v =>
                    match MinimiseWM.focus_windowF fuel wm2 (some v) with
                    | some (wm3, Except.ok _) => some (wm3, Except.ok ())
                    | _ => none
                  | none => some (wm2, Except.ok ())
          match info.float_or_tile with
          | FloatOrTile.Float =>
            refocus { wm1 with floating_wm :=
              { wm1.floating_wm with floats := mapRemove wm1.floating_wm.floats w } }
          | FloatOrTile.Tile =>
            if wm1.floating_wm.tiling_wm.tiles.contains w then
              refocus { wm1 with floating_wm :=
                { wm1.floating_wm with tiling_wm :=
                  { wm1.floating_wm.tiling_wm with
                      tiles := wm1.floating_wm.tiling_wm.tiles.erase w } } }
            else
              none

end

/-- `MinimiseWM::remove_window` (fuelled): a minimised window is unminimised
first (result unwrapped), then the removal is delegated. -/
def MinimiseWM.remove_windowF (fuel : Nat) (wm : MinimiseWM) (w : Window) :
    Option (MinimiseWM × Except WMError Unit) :=
  let step1 : Option MinimiseWM :=
    if wm.is_managed w && wm.is_minimised w then
      match MinimiseWM.toggle_minimisedF fuel wm w with
      | some (wm', Except.ok _) => some wm'
      | _ => none
    else
      some wm
  match step1 with
  | none => none
  | some wm' =>
    match wm'.floating_wm.remove_window w with
    | none => none
    | some (f', r) => some ({ wm' with floating_wm := f' }, r)

/-- `MinimiseWM::cycle_focus` (fuelled): return on zero windows; cycle in the
float layer, then unminimise the newly focused window when it is minimised
(the focused window is unwrapped). -/
def MinimiseWM.cycle_focusF (fuel : Nat) (wm : MinimiseWM) (dir : PrevOrNext) :
    Option MinimiseWM :=
  if wm.get_windows.length = 0 then
    some wm
  else
    let wm1 : MinimiseWM := { wm with floating_wm := wm.floating_wm.cycle_focus dir }
    match wm1.get_focused_window with
    | none => none
    | some w =>
      if wm1.is_minimised w then
        match MinimiseWM.toggle_minimisedF fuel wm1 w with
        | some (wm2, Except.ok _) => some wm2
        | _ => none
      else
        some wm1

/-- `MinimiseWM::get_master_window`. -/
def MinimiseWM.get_master_window (wm : MinimiseWM) : Option Window :=
  wm.floating_wm.get_master_window

/-- `MinimiseWM::get_floating_windows`: visible floats only (delegate). -/
def MinimiseWM.get_floating_windows (wm : MinimiseWM) : List Window :=
  wm.floating_wm.get_floating_windows

/-! ## Fullscreen layer (`assignment/src/e_fullscreen_windows.rs`)

`FullWM::focus_window` and `FullWM::toggle_fullscreen` call each other, so
both take fuel.  Note that `toggle_fullscreen` mutates *local copies* of the
`WindowWithInfo` records (`WindowWithInfo` is `Copy`), so the stored records
are never changed by it; the embedding therefore only reads the records to
model the `unwrap` panics. -/

/-- The `FullWM` struct: wraps `MinimiseWM`, plus the current fullscreen
window, if any. -/
structure FullWM where
  minimise_wm : MinimiseWM
  fullscreen_window : Option Window
deriving DecidableEq, Repr

/-- `FullWM::new`. -/
def FullWM.new (screen : Screen) : FullWM :=
  { minimise_wm := MinimiseWM.new screen, fullscreen_window := none }

/-- `FullWM::get_windows`. -/
def FullWM.get_windows (wm : FullWM) : List Window :=
  wm.minimise_wm.get_windows

/-- `is_managed` trait default for `FullWM`. -/
def FullWM.is_managed (wm : FullWM) (w : Window) : Bool :=
  wm.get_windows.contains w

/-- `FullWM::get_focused_window`. -/
def FullWM.get_focused_window (wm : FullWM) : Option Window :=
  wm.minimise_wm.get_focused_window

/-- `FullWM::get_window_info`: delegate. -/
def FullWM.get_window_info (wm : FullWM) (w : Window) :
    Option (Except WMError WindowWithInfo) :=
  wm.minimise_wm.get_window_info w

/-- `FullWM::get_screen`. -/
def FullWM.get_screen (wm : FullWM) : Screen :=
  wm.minimise_wm.get_screen

/-- `FullWM::get_minimised_windows`: delegate. -/
def FullWM.get_minimised_windows (wm : FullWM) : List Window :=
  wm.minimise_wm.get_minimised_windows

/-- `MinimiseSupport::is_minimised` (trait default) for `FullWM`. -/
def FullWM.is_minimised (wm : FullWM) (w : Window) : Bool :=
  wm.get_minimised_windows.contains w

/-- `FullscreenSupport::get_fullscreen_window` for `FullWM`. -/
def FullWM.get_fullscreen_window (wm : FullWM) : Option Window :=
  wm.fullscreen_window

/-- `FullWM::get_window_layout`: with a fullscreen window the layout is just
that window at the full screen geometry, focused; otherwise delegate. -/
def FullWM.get_window_layout (wm : FullWM) : WindowLayout :=
  match wm.fullscreen_window with
  | none => wm.minimise_wm.get_window_layout
  | some f =>
    { focused_window := some f, windows := [(f, wm.get_screen.to_geometry)] }

mutual

/-- `FullWM::toggle_fullscreen` (fuelled): `UnknownWindow` when unmanaged;
when `w` is the fullscreen window, clear the option (the record update hits a
local copy and is lost); when another window is fullscreen, or none is, set
the option to `w` and focus `w` (both paths unwrap `get_window_info` reads
and the inner `focus_window` result). -/
def FullWM.toggle_fullscreenF : Nat → FullWM → Window →
    Option (FullWM × Except WMError Unit)
  | 0, _, _ => none
  | fuel + 1, wm, w =>
    if !(wm.is_managed w) then
      some (wm, Except.error (WMError.UnknownWindow w))
    else
      match wm.fullscreen_window with
      | some f =>
        if f == w then
          match wm.get_window_info f with
          | some (Except.ok _) =>
            some ({ wm with fullscreen_window := none }, Except.ok ())
          | _ => none
        else
          match wm.get_window_info f, wm.get_window_info w with
          | some (Except.ok _), some (Except.ok _) =>
            let wm' : FullWM := { wm with fullscreen_window := some w }
            match FullWM.focus_windowF fuel wm' (some w) with
            | some (wm'', Except.ok _) => some (wm'', Except.ok ())
            | _ => none
          | _, _ => none
      | none =>
        match wm.get_window_info w with
        | some (Except.ok _) =>
          let wm' : FullWM := { wm with fullscreen_window := some w }
          match FullWM.focus_windowF fuel wm' (some w) with
          | some (wm'', Except.ok _) => some (wm'', Except.ok ())
          | _ => none
        | _ => none

/-- `FullWM::focus_window` (fuelled): `focus_window(None)` un-fullscreens the
fullscreen window first; focusing an unmanaged window just delegates (to
produce the error); focusing a managed window un-fullscreens any *other*
fullscreen window first, then delegates. -/
def FullWM.focus_windowF : Nat → FullWM → Option Window →
    Option (FullWM × Except WMError Unit)
  | 0, _, _ => none
  | fuel + 1, wm, window =>
    let cont : FullWM → Option (FullWM × Except WMError Unit) := fun wm' =>
      match MinimiseWM.focus_windowF fuel wm'.minimise_wm window with
      | none => none
      | some (m', r) => some ({ wm' with minimise_wm := m' }, r)
    match window with
    | none =>
      match wm.fullscreen_window with
      | some f =>
        match FullWM.toggle_fullscreenF fuel wm f with
        | some (wm', Except.ok _) => cont wm'
        | _ => none
      | none => cont wm
    | some w =>
      if !(wm.is_managed w) then
        cont wm
      else
        match wm.fullscreen_window with
        | some f =>
          if f != w then
            match FullWM.toggle_fullscreenF fuel wm f with
            | some (wm', Except.ok _) => cont wm'
            | _ => none
          else
            cont wm
        | none => cont wm

end

/-- `FullWM::add_window` (fuelled): an already managed window delegates (to
produce the `AlreadyManagedWindow` error); otherwise any existing fullscreen
window is un-fullscreened, the window is added through the minimise layer,
and a window that asks for fullscreen is toggled fullscreen afterwards. -/
def FullWM.add_windowF (fuel : Nat) (wm : FullWM) (wwi : WindowWithInfo) :
    Option (FullWM × Except WMError Unit) :=
  if wm.is_managed wwi.window then
    let (m', r) := wm.minimise_wm.add_window wwi
    some ({ wm with minimise_wm := m' }, r)
  else
    let step1 : Option FullWM :=
      match wm.fullscreen_window with
      | none => some wm
      | some f =>
        match FullWM.toggle_fullscreenF fuel wm f with
        | some (wm', Except.ok _) => some wm'
        | _ => none
    match step1 with
    | none => none
    | some wm1 =>
      match wm1.minimise_wm.add_window wwi with
      | (_, Except.error _) => none
      | (m', Except.ok _) =>
        let wm2 : FullWM := { wm1 with minimise_wm := m' }
        if wwi.fullscreen then
          match FullWM.toggle_fullscreenF fuel wm2 wwi.window with
          | some (wm3, Except.ok _) => some (wm3, Except.ok ())
          | _ => none
        else
          some (wm2, Except.ok ())

/-- `FullWM::remove_window` (fuelled): removing the fullscreen window first
un-fullscreens it, removes it and clears the option; otherwise delegate. -/
def FullWM.remove_windowF (fuel : Nat) (wm : FullWM) (w : Window) :
    Option (FullWM × Except WMError Unit) :=
  if wm.is_managed w && wm.fullscreen_window == some w then
    match FullWM.toggle_fullscreenF fuel wm w with
    | some (wm1, Except.ok _) =>
      match MinimiseWM.remove_windowF fuel wm1.minimise_wm w with
      | some (m', Except.ok _) =>
        some ({ minimise_wm := m', fullscreen_window := none }, Except.ok ())
      | _ => none
    | _ => none
  else
    match MinimiseWM.remove_windowF fuel wm.minimise_wm w with
    | none => none
    | some (m', r) => some ({ wm with minimise_wm := m' }, r)

/-- `FullWM::cycle_focus` (fuelled): with a fullscreen window and more than
one managed window, un-fullscreen first; with only one window, return;
otherwise delegate. -/
def FullWM.cycle_focusF (fuel : Nat) (wm : FullWM) (dir : PrevOrNext) :
    Option FullWM :=
  let step1 : Option (Option FullWM) :=
    match wm.fullscreen_window with
    | some f =>
      if wm.get_windows.length > 1 then
        match FullWM.toggle_fullscreenF fuel wm f with
        | some (wm', Except.ok _) => some (some wm')
        | _ => none
      else
        some none
    | none => some (some wm)
  match step1 with
  | none => none
  | some none => some wm
  | some (some wm') =>
    match MinimiseWM.cycle_focusF fuel wm'.minimise_wm dir with
    | none => none
    | some m' => some { wm' with minimise_wm := m' }

/-- `FullWM::toggle_minimised` (fuelled): minimising the fullscreen window
un-fullscreens it first (a record update on a local copy is then lost);
unminimising a window whose *stored record* says fullscreen un-fullscreens
any current fullscreen window and then makes the window fullscreen; finally
the call is delegated to the minimise layer. -/
def FullWM.toggle_minimisedF (fuel : Nat) (wm : FullWM) (w : Window) :
    Option (FullWM × Except WMError Unit) :=
  let step1 : Option FullWM :=
    if wm.is_managed w then
      if !(wm.is_minimised w) then
        if wm.fullscreen_window == some w then
          match FullWM.toggle_fullscreenF fuel wm w with
          | some (wm1, Except.ok _) =>
            match wm1.get_window_info w with
            | some (Except.ok _) => some wm1
            | _ => none
          | _ => none
        else
          some wm
      else
        match wm.get_window_info w with
        | some (Except.ok info) =>
          if info.fullscreen then
            let stepA : Option FullWM :=
              match wm.fullscreen_window with
              | some f =>
                match FullWM.toggle_fullscreenF fuel wm f with
                | some (wmA, Except.ok _) => some wmA
                | _ => none
              | none => some wm
            match stepA with
            | none => none
            | some wmA =>
              match FullWM.toggle_fullscreenF fuel wmA w with
              | some (wm1, Except.ok _) => some wm1
              | _ => none
          else
            some wm
        | _ => none
    else
      some wm
  match step1 with
  | none => none
  | some wmX =>
    match MinimiseWM.toggle_minimisedF fuel wmX.minimise_wm w with
    | none => none
    | some (m', r) => some ({ wmX with minimise_wm := m' }, r)

/-! ## Gap layer (`assignment/src/f_gaps.rs`) -/

/-- The `GapsWM` struct: wraps `TilingWM` directly, plus the gap size. -/
structure GapsWM where
  tiling_wm : TilingWM
  gap : Nat
deriving DecidableEq, Repr

/-- `GapsWM::new`: gap starts at 0. -/
def GapsWM.new (screen : Screen) : GapsWM :=
  { tiling_wm := TilingWM.new screen, gap := 0 }

/-- The per-rectangle update of `GapsWM::get_window_layout`:
`x += gap, y += gap, width -= gap*2, height -= gap*2` (the code assumes the
gap is small enough that the `u32` subtractions do not underflow). -/
def gapShrink (gap : Nat) (p : Window × Geometry) : Window × Geometry :=
  (p.1, { x := p.2.x + (gap : Int), y := p.2.y + (gap : Int),
          width := p.2.width - gap * 2, height := p.2.height - gap * 2 })

/-- `GapsWM::get_window_layout`: the tiling layout, with every rectangle
shrunk by the gap when the layout is non-empty and the gap is positive. -/
def GapsWM.get_window_layout (wm : GapsWM) : WindowLayout :=
  let layout := wm.tiling_wm.get_window_layout
  if layout.windows.length > 0 && wm.gap > 0 then
    { layout with windows := layout.windows.map (gapShrink wm.gap) }
  else
    layout

/-- `GapSupport::get_gap` for `GapsWM`. -/
def GapsWM.get_gap (wm : GapsWM) : Nat :=
  wm.gap

/-- `GapSupport::set_gap` for `GapsWM`. -/
def GapsWM.set_gap (wm : GapsWM) (gapsize : Nat) : GapsWM :=
  { wm with gap := gapsize }

/-! ## Multi-workspace layer (`assignment/src/g_multiple_workspaces.rs`)

`MultiWorkspaceWM::switch_workspace` and
`MultiWorkspaceWM::toggle_fullscreen` call each other, so both take fuel.
Note that the query loops of this layer iterate over
`0..MAX_WORKSPACE_INDEX`, i.e. workspaces `0`, `1`, `2` — the last workspace
(index 3) is skipped (only `resize_screen` uses `0..MAX_WORKSPACE_INDEX+1`);
the embedding reproduces those ranges exactly. -/

/-- The `MultiWorkspaceWM` struct: `MAX_WORKSPACE_INDEX + 1 = 4` full window
managers and the index of the current one. -/
structure MultiWorkspaceWM where
  workspaces : List FullWM
  index : Nat
deriving DecidableEq, Repr

/-- `MultiWorkspaceWM::new`: four fresh `FullWM` instances, current index 0. -/
def MultiWorkspaceWM.new (screen : Screen) : MultiWorkspaceWM :=
  { workspaces := List.replicate (MAX_WORKSPACE_INDEX + 1) (FullWM.new screen),
    index := 0 }

/-- `MultiWorkspaceWM::get_windows`: concatenation of `get_windows()` over
the loop `for i in 0..MAX_WORKSPACE_INDEX` — workspaces 0, 1 and 2 only (an
out-of-range index would panic in Rust; with four workspaces it cannot). -/
def MultiWorkspaceWM.get_windows (wm : MultiWorkspaceWM) : List Window :=
  (List.range MAX_WORKSPACE_INDEX).flatMap (fun i =>
    match wm.workspaces[i]? with
    | some ws => ws.get_windows
    | none => [])

/-- `is_managed` trait default for `MultiWorkspaceWM`. -/
def MultiWorkspaceWM.is_managed (wm : MultiWorkspaceWM) (w : Window) : Bool :=
  wm.get_windows.contains w

/-- `MultiWorkspaceWM::get_focused_window`: delegate to the current
workspace (`none` also stands for the out-of-range panic, unreachable). -/
def MultiWorkspaceWM.get_focused_window (wm : MultiWorkspaceWM) : Option Window :=
  match wm.workspaces[wm.index]? with
  | some ws => ws.get_focused_window
  | none => none

/-- `MultiWorkspaceWM::get_fullscreen_window`: delegate to the current
workspace (`none` also stands for the out-of-range panic, unreachable). -/
def MultiWorkspaceWM.get_fullscreen_window (wm : MultiWorkspaceWM) : Option Window :=
  match wm.workspaces[wm.index]? with
  | some ws => ws.get_fullscreen_window
  | none => none

/-- `MultiWorkspaceWM::get_window_layout`: delegate to the current workspace
(`WindowLayout.new` stands for the out-of-range panic, unreachable). -/
def MultiWorkspaceWM.get_window_layout (wm : MultiWorkspaceWM) : WindowLayout :=
  match wm.workspaces[wm.index]? with
  | some ws => ws.get_window_layout
  | none => WindowLayout.new

/-- `MultiWorkspaceWM::find_index`: the first workspace in `0..MAX` (again
skipping index 3) that manages the window, defaulting to 0. -/
def MultiWorkspaceWM.find_index (wm : MultiWorkspaceWM) (w : Window) : Nat :=
  ((List.range MAX_WORKSPACE_INDEX).find? (fun i =>
    match wm.workspaces[i]? with
    | some ws => ws.is_managed w
    | none => false)).getD 0

/-- `MultiWorkspaceWM::add_window` (fuelled): `AlreadyManagedWindow` when any
(scanned) workspace manages the window, else delegate to the current one. -/
def MultiWorkspaceWM.add_windowF (fuel : Nat) (wm : MultiWorkspaceWM)
    (wwi : WindowWithInfo) : Option (MultiWorkspaceWM × Except WMError Unit) :=
  if wm.is_managed wwi.window then
    some (wm, Except.error (WMError.AlreadyManagedWindow wwi.window))
  else
    match wm.workspaces[wm.index]? with
    | none => none
    | some ws =>
      match FullWM.add_windowF fuel ws wwi with
      | none => none
      | some (ws', r) =>
        some ({ wm with workspaces := wm.workspaces.set wm.index ws' }, r)

/-- `MultiWorkspaceWM::remove_window` (fuelled): `UnknownWindow` when no
scanned workspace manages the window; otherwise remove it from the first
workspace in `0..MAX` that manages it (result unwrapped) and return `Ok`. -/
def MultiWorkspaceWM.remove_windowF (fuel : Nat) (wm : MultiWorkspaceWM)
    (w : Window) : Option (MultiWorkspaceWM × Except WMError Unit) :=
  if !(wm.is_managed w) then
    some (wm, Except.error (WMError.UnknownWindow w))
  else
    match (List.range MAX_WORKSPACE_INDEX).find? (fun i =>
        match wm.workspaces[i]? with
        | some ws => ws.is_managed w
        | none => false) with
    | none => some (wm, Except.ok ())
    | some i =>
      match wm.workspaces[i]? with
      | none => none
      | some ws =>
        match FullWM.remove_windowF fuel ws w with
        | some (ws', Except.ok _) =>
          some ({ wm with workspaces := wm.workspaces.set i ws' }, Except.ok ())
        | _ => none

mutual

/-- `MultiWorkspaceSupport::switch_workspace` (fuelled): error on an index
above `MAX_WORKSPACE_INDEX`; no-op when already current; otherwise, when the
current workspace has a fullscreen window, toggle it (result unwrapped), then
set the index. -/
def MultiWorkspaceWM.switch_workspaceF : Nat → MultiWorkspaceWM → Nat →
    Option (MultiWorkspaceWM × Except WMError Unit)
  | 0, _, _ => none
  | fuel + 1, wm, i =>
    if i > MAX_WORKSPACE_INDEX then
      some (wm, Except.error (WMError.WorkspaceIndexNotValid i))
    else if i == wm.index then
      some (wm, Except.ok ())
    else
      match wm.get_fullscreen_window with
      | some f =>
        match MultiWorkspaceWM.toggle_fullscreenF fuel wm f with
        | some (wm', Except.ok _) => some ({ wm' with index := i }, Except.ok ())
        | _ => none
      | none => some ({ wm with index := i }, Except.ok ())

/-- `MultiWorkspaceWM::toggle_fullscreen` (fuelled): error when no scanned
workspace manages the window; the current fullscreen window is toggled on the
current workspace; otherwise the owning workspace is looked up (via
`find_index`), switched to when different, and the toggle delegated. -/
def MultiWorkspaceWM.toggle_fullscreenF : Nat → MultiWorkspaceWM → Window →
    Option (MultiWorkspaceWM × Except WMError Unit)
  | 0, _, _ => none
  | fuel + 1, wm, w =>
    if !(wm.is_managed w) then
      some (wm, Except.error (WMError.UnknownWindow w))
    else if wm.get_fullscreen_window == some w then
      match wm.workspaces[wm.index]? with
      | none => none
      | some ws =>
        match FullWM.toggle_fullscreenF fuel ws w with
        | none => none
        | some (ws', r) =>
          some ({ wm with workspaces := wm.workspaces.set wm.index ws' }, r)
    else
      let index := wm.find_index w
      let step1 : Option MultiWorkspaceWM :=
        if index != wm.index then
          match MultiWorkspaceWM.switch_workspaceF fuel wm index with
          | some (wm', Except.ok _) => some wm'
          | _ => none
        else
          some wm
      match step1 with
      | none => none
      | some wm1 =>
        match wm1.workspaces[index]? with
        | none => none
        | some ws =>
          match FullWM.toggle_fullscreenF fuel ws w with
          | none => none
          | some (ws', r) =>
            some ({ wm1 with workspaces := wm1.workspaces.set index ws' }, r)

end

/-! ## Spec-side definitions

Closed-form restatements of layout formulas, written from the wording of the
specification, to be compared with the embedded code. -/

/-- Decidable equality for `Except`, needed to evaluate embedded results. -/
instance {ε α : Type} [DecidableEq ε] [DecidableEq α] : DecidableEq (Except ε α) :=
  fun a b =>
    match a, b with
    | Except.ok x, Except.ok y =>
      if h : x = y then isTrue (by rw [h]) else isFalse (by intro hc; cases hc; exact h rfl)
    | Except.error x, Except.error y =>
      if h : x = y then isTrue (by rw [h]) else isFalse (by intro hc; cases hc; exact h rfl)
    | Except.ok _, Except.error _ => isFalse (by intro hc; cases hc)
    | Except.error _, Except.ok _ => isFalse (by intro hc; cases hc)

/-- Spec wording: the master tile occupies the left half of the screen,
`{x:0, y:0, width:W/2, height:H}`. -/
def specMasterGeometry (s : Screen) : Geometry :=
  { x := 0, y := 0, width := s.width / 2, height := s.height }

/-- Spec wording: the non-master tiles split the right half vertically in
equal slices — the `k`-th listed tile (starting from `k = 0`) sits at
`{x:W/2, y:k*(H/n), width:W/2, height:H/n}`, where `n` is the number of
non-master tiles. -/
def specRightStack (s : Screen) (n : Nat) : Nat → List Window → List (Window × Geometry)
  | _, [] => []
  | k, t :: ts =>
    (t, { x := ((s.width / 2 : Nat) : Int), y := ((k * (s.height / n) : Nat) : Int),
          width := s.width / 2, height := s.height / n }) :: specRightStack s n (k + 1) ts

/-- Spec wording for the gap layer: every tile rectangle is transformed by
`x += g, y += g, width -= 2*g, height -= 2*g`. -/
def specGapRect (g : Nat) (p : Window × Geometry) : Window × Geometry :=
  (p.1, { x := p.2.x + (g : Int), y := p.2.y + (g : Int),
          width := p.2.width - 2 * g, height := p.2.height - 2 * g })

/-- Two `MinimiseWM` states agree on everything `get_window_info` can see:
the stored `windows_info` records and the managed-window test. -/
def MWInfoEq (a b : MinimiseWM) : Prop :=
  a.floating_wm.tiling_wm.windows_info = b.floating_wm.tiling_wm.windows_info ∧
  ∀ v, a.is_managed v = b.is_managed v

/-- Two `FullWM` states agree on everything `get_window_info` can see. -/
def FWInfoEq (a b : FullWM) : Prop :=
  MWInfoEq a.minimise_wm b.minimise_wm

/-! ## Claims -/

/-- C2: fullscreen exclusivity for `FullWM` — in every state (hence in every
reachable state), at most one window is fullscreen, and whenever
`get_fullscreen_window() == Some(w)` the layout is exactly the single entry
`(w, full-screen geometry)` with `w` focused. -/
theorem fullwm_fullscreen_exclusive (wm : FullWM) (w : Window)
    (h : wm.get_fullscreen_window = some w) :
    (∀ w', wm.get_fullscreen_window = some w' → w' = w) ∧
    wm.get_window_layout =
      { focused_window := some w, windows := [(w, wm.get_screen.to_geometry)] } := by
  constructor
  · intro w' h'
    rw [h] at h'
    exact (Option.some.injEq _ _ ▸ h').symm
  · unfold FullWM.get_fullscreen_window at h
    unfold FullWM.get_window_layout
    rw [h]

/-- Witness for C2: a `FullWM` holding window 1 fullscreen on an 800×600
screen lays out exactly `[(1, 800×600 at 0,0)]` with focus on 1. -/
theorem fullwm_fullscreen_exclusive_witness :
    (FullWM.get_fullscreen_window
      { minimise_wm :=
          { floating_wm :=
              { tiling_wm :=
                  { windows := [1],
                    windows_info := [(1, WindowWithInfo.new_fullscreen 1
                      { x := 10, y := 10, width := 100, height := 100 })],
                    tiles := [1],
                    screen := { width := 800, height := 600 },
                    is_focus := true },
                floats := [] },
            minimised := [] },
        fullscreen_window := some 1 } = some 1) ∧
    (FullWM.get_window_layout
      { minimise_wm :=
          { floating_wm :=
              { tiling_wm :=
                  { windows := [1],
                    windows_info := [(1, WindowWithInfo.new_fullscreen 1
                      { x := 10, y := 10, width := 100, height := 100 })],
                    tiles := [1],
                    screen := { width := 800, height := 600 },
                    is_focus := true },
                floats := [] },
            minimised := [] },
        fullscreen_window := some 1 } =
      { focused_window := some 1,
        windows := [(1, { x := 0, y := 0, width := 800, height := 600 })] }) := by
  refine ⟨rfl, ?_⟩
  exact (fullwm_fullscreen_exclusive
    { minimise_wm :=
        { floating_wm :=
            { tiling_wm :=
                { windows := [1],
                  windows_info := [(1, WindowWithInfo.new_fullscreen 1
                    { x := 10, y := 10, width := 100, height := 100 })],
                  tiles := [1],
                  screen := { width := 800, height := 600 },
                  is_focus := true },
              floats := [] },
          minimised := [] },
      fullscreen_window := some 1 } 1 rfl).2.trans (by decide)

/-- C8: removing a window that is not managed returns `UnknownWindow` and
leaves the state (hence `get_windows()`) entirely unchanged, at the tiling
layer and at the multi-workspace layer. -/
theorem remove_window_unmanaged_atomic :
    (∀ (wm : TilingWM) (w : Window), wm.is_managed w = false →
      wm.remove_window w = some (wm, Except.error (WMError.UnknownWindow w))) ∧
    (∀ (fuel : Nat) (wm : MultiWorkspaceWM) (w : Window), wm.is_managed w = false →
      MultiWorkspaceWM.remove_windowF fuel wm w =
        some (wm, Except.error (WMError.UnknownWindow w))) := by
  constructor
  · intro wm w h
    unfold TilingWM.is_managed TilingWM.get_windows at h
    unfold TilingWM.remove_window
    rw [h]
    rfl
  · intro fuel wm w h
    unfold MultiWorkspaceWM.remove_windowF
    rw [h]
    rfl

/-- Witness for C8: concrete failed removals on fresh managers change
nothing. -/
theorem remove_window_unmanaged_atomic_witness :
    (TilingWM.remove_window (TilingWM.new { width := 800, height := 600 }) 1 =
      some (TilingWM.new { width := 800, height := 600 },
            Except.error (WMError.UnknownWindow 1))) ∧
    (MultiWorkspaceWM.remove_windowF 5
        (MultiWorkspaceWM.new { width := 800, height := 600 }) 1 =
      some (MultiWorkspaceWM.new { width := 800, height := 600 },
            Except.error (WMError.UnknownWindow 1))) :=
  ⟨remove_window_unmanaged_atomic.1 _ 1 (by decide),
   remove_window_unmanaged_atomic.2 5 _ 1 (by decide)⟩

/-- C3 (code bug): removing the last remaining floating window (id 1) leaves
its entry in the float map — `get_floating_windows()` still returns `[1]`
while `get_windows()` is empty, breaking `floating ⊆ managed`
(`FloatingWM::remove_window` removes the hard-coded key `0` instead of the
window in the "last window" branch). -/
theorem floating_remove_last_float_leaks_entry :
    (FloatingWM.remove_window
        ((FloatingWM.new { width := 800, height := 600 }).add_window
          (WindowWithInfo.new_float 1
            { x := 10, y := 10, width := 100, height := 100 })).1 1).map
      (fun p => (p.2, p.1.get_floating_windows, p.1.get_windows)) =
    some (Except.ok (), [1], []) := by decide

/-- C5 (code bug): `get_window_info` on a managed *floating* window panics —
`FloatingWM::get_window_info` routes `Float` records into
`TilingWM::get_window_info`, whose unwrap of the layout lookup fails because
the tiling layout contains only tiles (`none` = panic). -/
theorem floating_get_window_info_float_panics :
    (((FloatingWM.new { width := 800, height := 600 }).add_window
        (WindowWithInfo.new_float 1
          { x := 10, y := 10, width := 100, height := 100 })).1.is_managed 1 = true) ∧
    (((FloatingWM.new { width := 800, height := 600 }).add_window
        (WindowWithInfo.new_float 1
          { x := 10, y := 10, width := 100, height := 100 })).1.get_window_info 1 =
      none) := by decide

set_option synthInstance.maxSize 400 in
/-- C4 (code bug): a window added while workspace 3 is current is invisible
to `get_windows()`/`is_managed` (the loops scan `0..MAX_WORKSPACE_INDEX`,
skipping the last workspace), and after switching to workspace 0 the same
window id can be added again with `Ok` instead of `AlreadyManagedWindow`. -/
theorem multi_workspace_three_invisible :
    ((MultiWorkspaceWM.switch_workspaceF 8
        (MultiWorkspaceWM.new { width := 800, height := 600 }) 3).bind (fun p =>
      (MultiWorkspaceWM.add_windowF 8 p.1
          (WindowWithInfo.new_tiled 1
            { x := 10, y := 10, width := 100, height := 100 })).map (fun q =>
        (p.2, q.2, q.1.get_windows, q.1.is_managed 1,
         (MultiWorkspaceWM.switch_workspaceF 8 q.1 0).bind (fun r =>
           (MultiWorkspaceWM.add_windowF 8 r.1
               (WindowWithInfo.new_tiled 1
                 { x := 10, y := 10, width := 100, height := 100 })).map
             (fun t => t.2)))))) =
    some (Except.ok (), Except.ok (), ([] : List Window), false, some (Except.ok ())) := by
  decide

/-- The code-side per-rectangle gap update agrees with the spec wording
(`gap * 2` versus `2 * gap`). -/
theorem gapShrink_eq_specGapRect (g : Nat) (p : Window × Geometry) :
    gapShrink g p = specGapRect g p := by
  simp [gapShrink, specGapRect, Nat.mul_comm]

/-- C9: with a positive gap (and the documented precondition that the gap is
small enough that all tile dimensions stay positive), the gap layer's layout
is the underlying tiling layout with every rectangle transformed by
`x += g, y += g, width -= 2*g, height -= 2*g`. -/
theorem gaps_layout_is_shrunk_tiling (wm : GapsWM) (hgap : 0 < wm.gap)
    (hdim : ∀ p ∈ wm.tiling_wm.get_window_layout.windows,
      2 * wm.gap < p.2.width ∧ 2 * wm.gap < p.2.height) :
    wm.get_window_layout =
      { focused_window := wm.tiling_wm.get_window_layout.focused_window,
        windows := wm.tiling_wm.get_window_layout.windows.map (specGapRect wm.gap) } := by
  unfold GapsWM.get_window_layout
  rcases hws : wm.tiling_wm.get_window_layout.windows with _ | ⟨p, ps⟩
  · simp only [hws, List.length_nil, List.map_nil]
    conv_rhs => rw [← hws]
    rfl
  · have hcond : ((wm.tiling_wm.get_window_layout.windows.length > 0 : Bool) &&
        (wm.gap > 0 : Bool)) = true := by
      rw [hws]
      simp [hgap]
    simp only [hcond, if_true]
    rw [WindowLayout.mk.injEq]
    refine ⟨rfl, ?_⟩
    rw [hws]
    simp [gapShrink_eq_specGapRect]

/-- Witness for C9: the 2-window 800×600 case with gap 5 lays out exactly
`[(1,{5,5,390,590}), (2,{405,5,390,590})]`. -/
theorem gaps_layout_is_shrunk_tiling_witness :
    (0 < (5 : Nat)) ∧
    (GapsWM.get_window_layout
      { tiling_wm :=
          { windows := [1, 2],
            windows_info :=
              [(1, WindowWithInfo.new_tiled 1 { x := 10, y := 10, width := 100, height := 100 }),
               (2, WindowWithInfo.new_tiled 2 { x := 10, y := 10, width := 100, height := 100 })],
            tiles := [1, 2],
            screen := { width := 800, height := 600 },
            is_focus := true },
        gap := 5 } =
      { focused_window := some 2,
        windows := [(1, { x := 5, y := 5, width := 390, height := 590 }),
                    (2, { x := 405, y := 5, width := 390, height := 590 })] }) := by
  refine ⟨by decide, ?_⟩
  exact (gaps_layout_is_shrunk_tiling
    { tiling_wm :=
        { windows := [1, 2],
          windows_info :=
            [(1, WindowWithInfo.new_tiled 1 { x := 10, y := 10, width := 100, height := 100 }),
             (2, WindowWithInfo.new_tiled 2 { x := 10, y := 10, width := 100, height := 100 })],
          tiles := [1, 2],
          screen := { width := 800, height := 600 },
          is_focus := true },
      gap := 5 } (by decide) (by decide)).trans (by decide)

/-- The imperative stacking loop of the tiling layout equals the spec's
closed form: starting from a rectangle whose `y` is one slice above `k`
slices down, the loop lists the tiles at `k, k+1, …` slices down. -/
theorem tileStack_eq_specRightStack (s : Screen) (n : Nat) :
    ∀ (ts : List Window) (k : Nat),
      tileStack ts
        { x := ((s.width / 2 : Nat) : Int),
          y := ((k * (s.height / n) : Nat) : Int) - ((s.height / n : Nat) : Int),
          width := s.width / 2, height := s.height / n } (s.height / n) =
      specRightStack s n k ts := by
  intro ts
  induction ts with
  | nil => intro k; rfl
  | cons t rest ih =>
    intro k
    unfold tileStack specRightStack
    refine congrArg₂ _ ?_ ?_
    · refine congrArg _ ?_
      rw [Geometry.mk.injEq]
      refine ⟨rfl, by ring, rfl, rfl⟩
    · have := ih (k + 1)
      rw [← this]
      refine congrArg₂ (fun g h => tileStack rest g h) ?_ rfl
      rw [Geometry.mk.injEq]
      refine ⟨rfl, ?_, rfl, rfl⟩
      push_cast
      ring

/-- C1: with `n ≥ 2` tiles and a focused window, the tiling layout places the
master tile at `{0,0,W/2,H}` and the remaining tiles, in `tiles` order, as
equal vertical slices of the right half (`width = W/2`,
`height = H/(n-1)`, the `k`-th slice `k·(H/(n-1))` down), and the focused
window of the layout is the last window in focus order. -/
theorem tiling_layout_master_stack (wm : TilingWM) (t0 r : Window)
    (rest : List Window) (htiles : wm.tiles = t0 :: r :: rest)
    (hfocus : wm.is_focus = true) (hwin : wm.windows ≠ []) :
    wm.get_window_layout =
      { focused_window := wm.windows.getLast?,
        windows := (t0, specMasterGeometry wm.screen) ::
          specRightStack wm.screen (r :: rest).length 0 (r :: rest) } := by
  unfold TilingWM.get_window_layout
  rcases hlast : wm.windows.getLast? with _ | f
  · exact absurd (List.getLast?_eq_none_iff.mp hlast) hwin
  · rw [htiles, hfocus]
    simp only [if_true]
    rw [WindowLayout.mk.injEq]
    refine ⟨rfl, ?_⟩
    refine congrArg₂ _ rfl ?_
    have h := tileStack_eq_specRightStack wm.screen (r :: rest).length (r :: rest) 0
    rw [← h]
    refine congrArg₂ (fun g hh => tileStack (r :: rest) g hh) ?_ rfl
    rw [Geometry.mk.injEq]
    refine ⟨rfl, by simp [Screen.to_geometry], rfl, rfl⟩

/-- Witness for C1: on a fresh 800×600 `TilingWM` holding tiled windows
1, 2, 3 added in that order, the layout is exactly
`[(1,{0,0,400,600}), (2,{400,0,400,300}), (3,{400,300,400,300})]` with
focus on 3. -/
theorem tiling_layout_master_stack_witness :
    TilingWM.get_window_layout
      { windows := [1, 2, 3],
        windows_info :=
          [(1, WindowWithInfo.new_tiled 1 { x := 10, y := 10, width := 100, height := 100 }),
           (2, WindowWithInfo.new_tiled 2 { x := 10, y := 10, width := 100, height := 100 }),
           (3, WindowWithInfo.new_tiled 3 { x := 10, y := 10, width := 100, height := 100 })],
        tiles := [1, 2, 3],
        screen := { width := 800, height := 600 },
        is_focus := true } =
      { focused_window := some 3,
        windows := [(1, { x := 0, y := 0, width := 400, height := 600 }),
                    (2, { x := 400, y := 0, width := 400, height := 300 }),
                    (3, { x := 400, y := 300, width := 400, height := 300 })] } := by
  exact (tiling_layout_master_stack
    { windows := [1, 2, 3],
      windows_info :=
        [(1, WindowWithInfo.new_tiled 1 { x := 10, y := 10, width := 100, height := 100 }),
         (2, WindowWithInfo.new_tiled 2 { x := 10, y := 10, width := 100, height := 100 }),
         (3, WindowWithInfo.new_tiled 3 { x := 10, y := 10, width := 100, height := 100 })],
      tiles := [1, 2, 3],
      screen := { width := 800, height := 600 },
      is_focus := true } 1 2 [3] rfl rfl (by decide)).trans (by decide)

/-- C7: on a `MinimiseWM` holding exactly one managed (tiled, focused)
window `w`, `toggle_minimised(w)` empties the layout and clears the focus,
and a second `toggle_minimised(w)` restores exactly the original state —
in particular the original single-window layout
`(w, full-screen geometry)` with `w` focused. -/
theorem minimise_single_roundtrip (w : Window) (info : WindowWithInfo)
    (screen : Screen) (fuel : Nat) (wm : MinimiseWM)
    (hwm : wm =
      { floating_wm :=
          { tiling_wm :=
              { windows := [w], windows_info := [(w, info)], tiles := [w],
                screen := screen, is_focus := true },
            floats := [] },
        minimised := [] })
    (hw : info.window = w) (ht : info.float_or_tile = FloatOrTile.Tile) :
    ∃ wm1 : MinimiseWM,
      MinimiseWM.toggle_minimisedF (fuel + 2) wm w = some (wm1, Except.ok ()) ∧
      wm1.get_window_layout = { focused_window := none, windows := [] } ∧
      wm1.get_focused_window = none ∧
      MinimiseWM.toggle_minimisedF (fuel + 2) wm1 w = some (wm, Except.ok ()) ∧
      wm.get_window_layout =
        { focused_window := some w, windows := [(w, screen.to_geometry)] } := by
  subst hwm
  refine ⟨{ floating_wm :=
              { tiling_wm :=
                  { windows := [w], windows_info := [(w, info)], tiles := [],
                    screen := screen, is_focus := false },
                floats := [] },
            minimised := [w] }, ?_, ?_, ?_, ?_, ?_⟩
  · simp [MinimiseWM.toggle_minimisedF, MinimiseWM.focus_windowF,
      MinimiseWM.is_managed, MinimiseWM.get_windows, FloatingWM.get_windows,
      TilingWM.get_windows, MinimiseWM.get_window_info, mapGet,
      MinimiseWM.is_minimised, MinimiseWM.get_minimised_windows, ht,
      MinimiseWM.get_focused_window, FloatingWM.get_focused_window,
      TilingWM.get_focused_window, FloatingWM.focus_window, TilingWM.focus_window]
  · simp [MinimiseWM.get_window_layout, FloatingWM.get_window_layout,
      TilingWM.get_window_layout, FloatingWM.is_floating,
      FloatingWM.get_floating_windows]
  · simp [MinimiseWM.get_focused_window, FloatingWM.get_focused_window,
      TilingWM.get_focused_window]
  · simp [MinimiseWM.toggle_minimisedF, MinimiseWM.focus_windowF,
      MinimiseWM.is_managed, MinimiseWM.get_windows, FloatingWM.get_windows,
      TilingWM.get_windows, MinimiseWM.get_window_info, mapGet,
      MinimiseWM.is_minimised, MinimiseWM.get_minimised_windows, ht, hw,
      FloatingWM.focus_window, TilingWM.focus_window]
  · simp [MinimiseWM.get_window_layout, FloatingWM.get_window_layout,
      TilingWM.get_window_layout, FloatingWM.is_floating,
      FloatingWM.get_floating_windows, TilingWM.get_focused_window]

/-- Witness for C7: the round trip on a concrete single-window manager
(window 1, 800×600 screen). -/
theorem minimise_single_roundtrip_witness :
    ∃ wm1 : MinimiseWM,
      MinimiseWM.toggle_minimisedF 2
        { floating_wm :=
            { tiling_wm :=
                { windows := [1],
                  windows_info := [(1, WindowWithInfo.new_tiled 1
                    { x := 10, y := 10, width := 100, height := 100 })],
                  tiles := [1],
                  screen := { width := 800, height := 600 },
                  is_focus := true },
              floats := [] },
          minimised := [] } 1 = some (wm1, Except.ok ()) ∧
      wm1.get_window_layout = { focused_window := none, windows := [] } ∧
      wm1.get_focused_window = none ∧
      MinimiseWM.toggle_minimisedF 2 wm1 1 =
        some ({ floating_wm :=
                  { tiling_wm :=
                      { windows := [1],
                        windows_info := [(1, WindowWithInfo.new_tiled 1
                          { x := 10, y := 10, width := 100, height := 100 })],
                        tiles := [1],
                        screen := { width := 800, height := 600 },
                        is_focus := true },
                    floats := [] },
                minimised := [] }, Except.ok ()) ∧
      MinimiseWM.get_window_layout
        { floating_wm :=
            { tiling_wm :=
                { windows := [1],
                  windows_info := [(1, WindowWithInfo.new_tiled 1
                    { x := 10, y := 10, width := 100, height := 100 })],
                  tiles := [1],
                  screen := { width := 800, height := 600 },
                  is_focus := true },
              floats := [] },
          minimised := [] } =
        { focused_window := some 1,
          windows := [(1, Screen.to_geometry { width := 800, height := 600 })] } :=
  minimise_single_roundtrip 1
    (WindowWithInfo.new_tiled 1 { x := 10, y := 10, width := 100, height := 100 })
    { width := 800, height := 600 } 0 _ rfl rfl rfl

/-- `swapNth` with both indices in range is the double `set`. -/
theorem swapNth_eq_set_set {α : Type} (l : List α) (i j : Nat)
    (hi : i < l.length) (hj : j < l.length) :
    swapNth l i j = (l.set i (l.get ⟨j, hj⟩)).set j (l.get ⟨i, hi⟩) := by
  unfold swapNth
  rw [List.getElem?_eq_getElem hi, List.getElem?_eq_getElem hj]
  rfl

/-- `swapNth` preserves the length. -/
theorem swapNth_length {α : Type} (l : List α) (i j : Nat) :
    (swapNth l i j).length = l.length := by
  unfold swapNth
  cases h1 : l[i]? <;> cases h2 : l[j]? <;> simp [h1, h2]

/-- The elements of a `swapNth`: position `j` holds the old `l[i]`, position
`i` the old `l[j]`, everything else is unchanged. -/
theorem getElem?_swapNth {α : Type} (l : List α) (i j k : Nat)
    (hi : i < l.length) (hj : j < l.length) :
    (swapNth l i j)[k]? = if k = j then l[i]? else if k = i then l[j]? else l[k]? := by
  rw [swapNth_eq_set_set l i j hi hj, List.getElem?_set, List.getElem?_set]
  rcases eq_or_ne k j with hkj | hkj
  · subst hkj
    rw [if_pos rfl, if_pos rfl, if_pos (by rw [List.length_set]; exact hj),
        List.getElem?_eq_getElem hi]
    rfl
  · rw [if_neg (fun h => hkj h.symm), if_neg hkj]
    rcases eq_or_ne k i with hki | hki
    · subst hki
      rw [if_pos rfl, if_pos rfl, if_pos hi, List.getElem?_eq_getElem hj]
      rfl
    · rw [if_neg (fun h => hki h.symm), if_neg hki]

/-- Swapping the same two positions twice restores the list. -/
theorem swapNth_swapNth {α : Type} (l : List α) (i j : Nat)
    (hi : i < l.length) (hj : j < l.length) :
    swapNth (swapNth l i j) i j = l := by
  have hlen := swapNth_length l i j
  apply List.ext_getElem?
  intro k
  rw [getElem?_swapNth _ i j k (hlen ▸ hi) (hlen ▸ hj)]
  by_cases hkj : k = j
  · rw [if_pos hkj, getElem?_swapNth l i j i hi hj, hkj]
    by_cases hij : i = j
    · rw [if_pos hij, hij]
    · rw [if_neg hij, if_pos rfl]
  · rw [if_neg hkj]
    by_cases hki : k = i
    · rw [if_pos hki, getElem?_swapNth l i j j hi hj, if_pos rfl, hki]
    · rw [if_neg hki, getElem?_swapNth l i j k hi hj, if_neg hkj, if_neg hki]

/-- `swapNth` is symmetric in its two indices. -/
theorem swapNth_comm {α : Type} (l : List α) (i j : Nat)
    (hi : i < l.length) (hj : j < l.length) :
    swapNth l i j = swapNth l j i := by
  apply List.ext_getElem?
  intro k
  rw [getElem?_swapNth l i j k hi hj, getElem?_swapNth l j i k hj hi]
  by_cases hkj : k = j
  · by_cases hki : k = i
    · rw [if_pos hkj, if_pos hki, ← hki, ← hkj]
    · rw [if_pos hkj, if_neg hki, if_pos hkj]
  · rw [if_neg hkj]
    by_cases hki : k = i
    · rw [if_pos hki, if_pos hki]
    · rw [if_neg hki, if_neg hki, if_neg hkj]

/-- After swapping the (unique, by `Nodup`) position of `f` with position
`j`, the first index holding `f` is `j`. -/
theorem findIdx?_swapNth (l : List Window) (f : Window) (i j : Nat)
    (hnd : l.Nodup) (hij : i ≠ j) (hj : j < l.length)
    (hfind : l.findIdx? (fun t => t == f) = some i) :
    (swapNth l i j).findIdx? (fun t => t == f) = some j := by
  obtain ⟨hi, hpi, hprev⟩ := List.findIdx?_eq_some_iff_getElem.mp hfind
  have hif : l[i] = f := by simpa using hpi
  rw [List.findIdx?_eq_some_iff_getElem]
  have hjlen : j < (swapNth l i j).length := by rw [swapNth_length]; exact hj
  refine ⟨hjlen, ?_, ?_⟩
  · have h := getElem?_swapNth l i j j hi hj
    rw [if_pos rfl, List.getElem?_eq_getElem hjlen, List.getElem?_eq_getElem hi] at h
    have heq := Option.some.inj h
    simp [heq, hif]
  · intro k hkj
    have hkl : k < l.length := by omega
    have h := getElem?_swapNth l i j k hi hj
    rw [if_neg (Nat.ne_of_lt hkj),
        List.getElem?_eq_getElem (show k < (swapNth l i j).length by
          rw [swapNth_length]; exact hkl)] at h
    by_cases hki : k = i
    · rw [if_pos hki, List.getElem?_eq_getElem hj] at h
      have heq := Option.some.inj h
      rw [heq]
      simp only [beq_iff_eq]
      intro hjf
      exact hij ((hnd.getElem_inj_iff).mp (hif.trans hjf.symm))
    · rw [if_neg hki, List.getElem?_eq_getElem hkl] at h
      have heq := Option.some.inj h
      rw [heq]
      simp only [beq_iff_eq]
      intro hkf
      exact hki ((hnd.getElem_inj_iff).mp (hkf.trans hif.symm))

/-- One `swap_windows` step in the general (`≠ 2` tiles) case: the tile at
the focused window's index `i` is swapped with its circular neighbour. -/
theorem swap_windows_step (wm : TilingWM) (f : Window) (dir : PrevOrNext) (i : Nat)
    (hfocus : wm.is_focus = true) (hlast : wm.windows.getLast? = some f)
    (hfind : wm.tiles.findIdx? (fun t => t == f) = some i)
    (hne2 : wm.tiles.length ≠ 2) :
    wm.swap_windows dir = some { wm with tiles :=
      match dir with
      | PrevOrNext.Prev =>
        if i = 0 then swapNth wm.tiles i (wm.tiles.length - 1)
        else if i = 1 then swapNth wm.tiles 0 1
        else swapNth wm.tiles i (i - 1)
      | PrevOrNext.Next => swapNth wm.tiles i ((i + 1) % wm.tiles.length) } := by
  unfold TilingWM.swap_windows
  rw [hfocus, hlast]
  simp only [Bool.not_true, Bool.false_eq_true, if_false, if_neg hne2, hfind]
  cases dir
  · by_cases h0 : i = 0
    · simp [h0]
    · by_cases h1 : i = 1
      · simp [h0, h1]
      · simp [h0, h1]
  · simp

/-- `swap_windows` step, `Prev` direction. -/
theorem swap_windows_step_prev (wm : TilingWM) (f : Window) (i : Nat)
    (hfocus : wm.is_focus = true) (hlast : wm.windows.getLast? = some f)
    (hfind : wm.tiles.findIdx? (fun t => t == f) = some i)
    (hne2 : wm.tiles.length ≠ 2) :
    wm.swap_windows PrevOrNext.Prev =
      some { wm with tiles :=
        (if i = 0 then swapNth wm.tiles i (wm.tiles.length - 1)
         else if i = 1 then swapNth wm.tiles 0 1
         else swapNth wm.tiles i (i - 1)) } :=
  swap_windows_step wm f PrevOrNext.Prev i hfocus hlast hfind hne2

/-- `swap_windows` step, `Next` direction. -/
theorem swap_windows_step_next (wm : TilingWM) (f : Window) (i : Nat)
    (hfocus : wm.is_focus = true) (hlast : wm.windows.getLast? = some f)
    (hfind : wm.tiles.findIdx? (fun t => t == f) = some i)
    (hne2 : wm.tiles.length ≠ 2) :
    wm.swap_windows PrevOrNext.Next =
      some { wm with tiles := swapNth wm.tiles i ((i + 1) % wm.tiles.length) } :=
  swap_windows_step wm f PrevOrNext.Next i hfocus hlast hfind hne2

/-- C6: for a tiling engine state with at least two tiles (no duplicate tile
entries) and a focused window that is one of the tiles, `swap_windows(dir)`
followed by `swap_windows(dir.opposite())` restores the state — in
particular the window layout — exactly. -/
theorem tiling_swap_windows_roundtrip (wm : TilingWM) (f : Window)
    (dir : PrevOrNext) (hfocus : wm.is_focus = true)
    (hlast : wm.windows.getLast? = some f) (hmem : f ∈ wm.tiles)
    (hnd : wm.tiles.Nodup) (hlen : 2 ≤ wm.tiles.length) :
    (wm.swap_windows dir).bind (fun wm2 => wm2.swap_windows dir.opposite) =
      some wm := by
  rcases Nat.lt_or_ge wm.tiles.length 3 with h3 | h3
  · -- exactly two tiles: the special-cased plain swap, twice
    have h2 : wm.tiles.length = 2 := by omega
    obtain ⟨a, b, hab⟩ := List.length_eq_two.mp h2
    have hswap1 : wm.swap_windows dir = some { wm with tiles := [b, a] } := by
      unfold TilingWM.swap_windows
      rw [hfocus]
      simp only [Bool.not_true, Bool.false_eq_true, if_false]
      rw [hab]
      simp [swapNth]
    rw [hswap1]
    show ({ wm with tiles := [b, a] } : TilingWM).swap_windows dir.opposite = some wm
    unfold TilingWM.swap_windows
    rw [hfocus]
    simp only [Bool.not_true, Bool.false_eq_true, if_false]
    simp only [List.length_cons, List.length_nil]
    rw [show swapNth [b, a] 0 1 = [a, b] from rfl, ← hab]
    simp
    rw [← hfocus]
  · -- at least three tiles
    have hne2 : wm.tiles.length ≠ 2 := by omega
    obtain ⟨i, hfind⟩ : ∃ i, wm.tiles.findIdx? (fun t => t == f) = some i :=
      ⟨_, List.findIdx?_eq_some_of_exists ⟨f, hmem, by simp⟩⟩
    have hi : i < wm.tiles.length := (List.findIdx?_eq_some_iff_getElem.mp hfind).1
    cases dir
    · -- Prev then Next
      rw [swap_windows_step_prev wm f i hfocus hlast hfind hne2]
      by_cases i0 : i = 0
      · subst i0
        rw [if_pos rfl]
        show ({ wm with tiles := swapNth wm.tiles 0 (wm.tiles.length - 1) } :
          TilingWM).swap_windows PrevOrNext.Next = some wm
        have hj : wm.tiles.length - 1 < wm.tiles.length := by omega
        have hfind2 : (swapNth wm.tiles 0 (wm.tiles.length - 1)).findIdx?
            (fun t => t == f) = some (wm.tiles.length - 1) :=
          findIdx?_swapNth wm.tiles f 0 (wm.tiles.length - 1) hnd (by omega) hj hfind
        rw [swap_windows_step_next
          { wm with tiles := swapNth wm.tiles 0 (wm.tiles.length - 1) } f
          (wm.tiles.length - 1) hfocus hlast hfind2
          (by rw [swapNth_length]; exact hne2)]
        rw [swapNth_length]
        rw [show wm.tiles.length - 1 + 1 = wm.tiles.length from by omega, Nat.mod_self]
        rw [swapNth_comm (swapNth wm.tiles 0 (wm.tiles.length - 1))
          (wm.tiles.length - 1) 0 (by rw [swapNth_length]; omega)
          (by rw [swapNth_length]; omega)]
        rw [swapNth_swapNth wm.tiles 0 (wm.tiles.length - 1) (by omega) hj]
      · by_cases i1 : i = 1
        · subst i1
          rw [if_neg i0, if_pos rfl]
          show ({ wm with tiles := swapNth wm.tiles 0 1 } :
            TilingWM).swap_windows PrevOrNext.Next = some wm
          have hfind2 : (swapNth wm.tiles 0 1).findIdx? (fun t => t == f) =
              some 0 := by
            rw [swapNth_comm wm.tiles 0 1 (by omega) (by omega)]
            exact findIdx?_swapNth wm.tiles f 1 0 hnd (by omega) (by omega) hfind
          rw [swap_windows_step_next { wm with tiles := swapNth wm.tiles 0 1 } f 0
            hfocus hlast hfind2 (by rw [swapNth_length]; exact hne2)]
          rw [swapNth_length]
          rw [show (0 + 1) % wm.tiles.length = 1 from Nat.mod_eq_of_lt (by omega)]
          rw [swapNth_swapNth wm.tiles 0 1 (by omega) (by omega)]
        · rw [if_neg i0, if_neg i1]
          show ({ wm with tiles := swapNth wm.tiles i (i - 1) } :
            TilingWM).swap_windows PrevOrNext.Next = some wm
          have hfind2 : (swapNth wm.tiles i (i - 1)).findIdx? (fun t => t == f) =
              some (i - 1) :=
            findIdx?_swapNth wm.tiles f i (i - 1) hnd (by omega) (by omega) hfind
          rw [swap_windows_step_next { wm with tiles := swapNth wm.tiles i (i - 1) }
            f (i - 1) hfocus hlast hfind2 (by rw [swapNth_length]; exact hne2)]
          rw [swapNth_length]
          rw [show i - 1 + 1 = i from by omega,
              show i % wm.tiles.length = i from Nat.mod_eq_of_lt hi]
          rw [swapNth_comm (swapNth wm.tiles i (i - 1)) (i - 1) i
            (by rw [swapNth_length]; omega) (by rw [swapNth_length]; omega)]
          rw [swapNth_swapNth wm.tiles i (i - 1) hi (by omega)]
    · -- Next then Prev
      rw [swap_windows_step_next wm f i hfocus hlast hfind hne2]
      by_cases hiend : i + 1 = wm.tiles.length
      · rw [show (i + 1) % wm.tiles.length = 0 from by rw [hiend]; exact Nat.mod_self _]
        show ({ wm with tiles := swapNth wm.tiles i 0 } :
          TilingWM).swap_windows PrevOrNext.Prev = some wm
        have hii : 2 ≤ i := by omega
        have hfind2 : (swapNth wm.tiles i 0).findIdx? (fun t => t == f) =
            some 0 :=
          findIdx?_swapNth wm.tiles f i 0 hnd (by omega) (by omega) hfind
        rw [swap_windows_step_prev { wm with tiles := swapNth wm.tiles i 0 } f 0
          hfocus hlast hfind2 (by rw [swapNth_length]; exact hne2)]
        rw [if_pos rfl, swapNth_length]
        rw [show wm.tiles.length - 1 = i from by omega]
        rw [swapNth_comm (swapNth wm.tiles i 0) 0 i
          (by rw [swapNth_length]; omega) (by rw [swapNth_length]; omega)]
        rw [swapNth_swapNth wm.tiles i 0 hi (by omega)]
      · rw [show (i + 1) % wm.tiles.length = i + 1 from Nat.mod_eq_of_lt (by omega)]
        show ({ wm with tiles := swapNth wm.tiles i (i + 1) } :
          TilingWM).swap_windows PrevOrNext.Prev = some wm
        have hfind2 : (swapNth wm.tiles i (i + 1)).findIdx? (fun t => t == f) =
            some (i + 1) :=
          findIdx?_swapNth wm.tiles f i (i + 1) hnd (by omega) (by omega) hfind
        rw [swap_windows_step_prev { wm with tiles := swapNth wm.tiles i (i + 1) }
          f (i + 1) hfocus hlast hfind2 (by rw [swapNth_length]; exact hne2)]
        by_cases i0 : i = 0
        · subst i0
          rw [if_neg (by omega), if_pos rfl]
          rw [swapNth_swapNth wm.tiles 0 1 (by omega) (by omega)]
        · rw [if_neg (by omega), if_neg (by omega)]
          rw [show i + 1 - 1 = i from by omega]
          rw [swapNth_comm (swapNth wm.tiles i (i + 1)) (i + 1) i
            (by rw [swapNth_length]; omega) (by rw [swapNth_length]; omega)]
          rw [swapNth_swapNth wm.tiles i (i + 1) hi (by omega)]

/-- Witness for C6: the round trip on a concrete three-tile state with
window 3 focused. -/
theorem tiling_swap_windows_roundtrip_witness :
    (TilingWM.swap_windows
      { windows := [1, 2, 3],
        windows_info :=
          [(1, WindowWithInfo.new_tiled 1 { x := 10, y := 10, width := 100, height := 100 }),
           (2, WindowWithInfo.new_tiled 2 { x := 10, y := 10, width := 100, height := 100 }),
           (3, WindowWithInfo.new_tiled 3 { x := 10, y := 10, width := 100, height := 100 })],
        tiles := [1, 2, 3],
        screen := { width := 800, height := 600 },
        is_focus := true } PrevOrNext.Prev).bind
      (fun wm2 => wm2.swap_windows PrevOrNext.Prev.opposite) =
    some
      { windows := [1, 2, 3],
        windows_info :=
          [(1, WindowWithInfo.new_tiled 1 { x := 10, y := 10, width := 100, height := 100 }),
           (2, WindowWithInfo.new_tiled 2 { x := 10, y := 10, width := 100, height := 100 }),
           (3, WindowWithInfo.new_tiled 3 { x := 10, y := 10, width := 100, height := 100 })],
        tiles := [1, 2, 3],
        screen := { width := 800, height := 600 },
        is_focus := true } :=
  tiling_swap_windows_roundtrip
    { windows := [1, 2, 3],
      windows_info :=
        [(1, WindowWithInfo.new_tiled 1 { x := 10, y := 10, width := 100, height := 100 }),
         (2, WindowWithInfo.new_tiled 2 { x := 10, y := 10, width := 100, height := 100 }),
         (3, WindowWithInfo.new_tiled 3 { x := 10, y := 10, width := 100, height := 100 })],
      tiles := [1, 2, 3],
      screen := { width := 800, height := 600 },
      is_focus := true } 3 PrevOrNext.Prev rfl rfl (by decide) (by decide) (by decide)

/-- `MWInfoEq` is reflexive. -/
theorem MWInfoEq.rfl (a : MinimiseWM) : MWInfoEq a a :=
  ⟨Eq.refl _, fun _ => Eq.refl _⟩

/-- `MWInfoEq` is transitive. -/
theorem MWInfoEq.trans {a b c : MinimiseWM} (h1 : MWInfoEq a b)
    (h2 : MWInfoEq b c) : MWInfoEq a c :=
  ⟨h1.1.trans h2.1, fun v => (h1.2 v).trans (h2.2 v)⟩

/-- States related by `MWInfoEq` return the same `get_window_info`. -/
theorem minimise_info_congr {a b : MinimiseWM} (h : MWInfoEq a b) (v : Window) :
    a.get_window_info v = b.get_window_info v := by
  obtain ⟨h1, h2⟩ := h
  unfold MinimiseWM.get_window_info
  rw [show a.is_managed v = b.is_managed v from h2 v, h1]

/-- Moving the first occurrence of a present element to the back does not
change membership. -/
theorem contains_erase_append (l : List Window) (w : Window) (hw : w ∈ l)
    (v : Window) : (l.erase w ++ [w]).contains v = l.contains v := by
  have hperm : (l.erase w ++ [w]).Perm l :=
    List.perm_append_comm.trans (List.perm_cons_erase hw).symm
  simp only [List.contains, List.elem_eq_mem]
  exact decide_eq_decide.mpr hperm.mem_iff

/-- `FloatingWM::focus_window` changes only the focus order and flag: the
stored records and the managed-window set are untouched. -/
theorem floating_focus_frame (fwm : FloatingWM) (w? : Option Window) :
    (fwm.focus_window w?).1.tiling_wm.windows_info = fwm.tiling_wm.windows_info ∧
    ∀ v, (fwm.focus_window w?).1.tiling_wm.windows.contains v =
      fwm.tiling_wm.windows.contains v := by
  unfold FloatingWM.focus_window TilingWM.focus_window
  cases w? with
  | none => exact ⟨Eq.refl _, fun _ => Eq.refl _⟩
  | some w =>
    by_cases hc : fwm.tiling_wm.windows.contains w
    · simp only [hc, if_true]
      refine ⟨by trivial, fun v => ?_⟩
      have hw : w ∈ fwm.tiling_wm.windows := by
        simpa using hc
      exact contains_erase_append _ w hw v
    · simp only [hc, if_false]
      exact ⟨Eq.refl _, fun _ => Eq.refl _⟩

/-- Neither `MinimiseWM::focus_window` nor `MinimiseWM::toggle_minimised`
(at any fuel) ever changes the stored `windows_info` records or the
managed-window set: they only move windows between the tile stack, the float
map, the minimised list and the focus order. -/
theorem minimise_frame : ∀ fuel : Nat,
    (∀ (wm : MinimiseWM) (w? : Option Window) out,
       MinimiseWM.focus_windowF fuel wm w? = some out → MWInfoEq out.1 wm) ∧
    (∀ (wm : MinimiseWM) (w : Window) out,
       MinimiseWM.toggle_minimisedF fuel wm w = some out → MWInfoEq out.1 wm) := by
  intro fuel
  induction fuel with
  | zero =>
    constructor
    · intro wm w? out h
      simp [MinimiseWM.focus_windowF] at h
    · intro wm w out h
      simp [MinimiseWM.toggle_minimisedF] at h
  | succ n ih =>
    obtain ⟨ihf, iht⟩ := ih
    have hcont : ∀ (wm0 wm' : MinimiseWM) (w? : Option Window) out,
        MWInfoEq wm' wm0 →
        (let p := wm'.floating_wm.focus_window w?
         some (({ wm' with floating_wm := p.1 } : MinimiseWM), p.2)) = some out →
        MWInfoEq out.1 wm0 := by
      intro wm0 wm' w? out hstep h
      have hout := Option.some.inj h
      have hf := floating_focus_frame wm'.floating_wm w?
      refine MWInfoEq.trans ?_ hstep
      rw [← hout]
      exact ⟨hf.1, fun v => hf.2 v⟩
    constructor
    · -- focus_windowF
      intro wm w? out h
      unfold MinimiseWM.focus_windowF at h
      split at h
      next w =>
        split at h
        · split at h
          · rename_i wm' a heq
            exact hcont wm wm' (some w) out (iht wm w (wm', Except.ok a) heq) h
          · exact Option.noConfusion h
        · exact hcont wm wm (some w) out (MWInfoEq.rfl wm) h
      next =>
        exact hcont wm wm none out (MWInfoEq.rfl wm) h
    · -- toggle_minimisedF
      intro wm w out h
      unfold MinimiseWM.toggle_minimisedF at h
      repeat' (first | split at h | dsimp only [] at h)
      all_goals first
        | exact Option.noConfusion h
        | (rw [← Option.some.inj h]
           exact ⟨Eq.refl _, fun v => Eq.refl _⟩)
        | (rename_i wm'' a heq
           rw [← Option.some.inj h]
           exact MWInfoEq.trans (ihf _ _ (wm'', Except.ok a) heq)
             ⟨Eq.refl _, fun v => Eq.refl _⟩)

/-- Neither `FullWM::toggle_fullscreen` nor `FullWM::focus_window` (at any
fuel) ever changes the stored `windows_info` records or the managed-window
set: they only mutate the `fullscreen_window` option and delegate focus
changes (the `WindowWithInfo` updates in the Rust code hit `Copy` locals). -/
theorem full_frame : ∀ fuel : Nat,
    (∀ (wm : FullWM) (w : Window) out,
       FullWM.toggle_fullscreenF fuel wm w = some out →
         FWInfoEq out.1 wm) ∧
    (∀ (wm : FullWM) (w? : Option Window) out,
       FullWM.focus_windowF fuel wm w? = some out →
         FWInfoEq out.1 wm) := by
  intro fuel
  induction fuel with
  | zero =>
    constructor
    · intro wm w out h
      simp [FullWM.toggle_fullscreenF] at h
    · intro wm w? out h
      simp [FullWM.focus_windowF] at h
  | succ n ih =>
    obtain ⟨iht, ihf⟩ := ih
    constructor
    · -- toggle_fullscreenF
      intro wm w out h
      unfold FullWM.toggle_fullscreenF at h
      repeat' (first | split at h | dsimp only [] at h)
      all_goals first
        | exact Option.noConfusion h
        | (rw [← Option.some.inj h]
           exact MWInfoEq.rfl _)
        | (rename_i wm'' a heq
           rw [← Option.some.inj h]
           exact MWInfoEq.trans (ihf _ _ (wm'', Except.ok a) heq) (MWInfoEq.rfl _))
    · -- focus_windowF
      intro wm w? out h
      unfold FullWM.focus_windowF at h
      repeat' (first | split at h | dsimp only [] at h)
      all_goals first
        | exact Option.noConfusion h
        | (rw [← Option.some.inj h]
           exact MWInfoEq.rfl _)
        | (rename_i m' r heq
           rw [← Option.some.inj h]
           exact (minimise_frame n).1 _ _ (m', r) heq)
        | (rename_i xT wm' a heqT xF m' r heqF
           rw [← Option.some.inj h]
           exact MWInfoEq.trans ((minimise_frame n).1 _ _ (m', r) heqF)
             (MWInfoEq.trans (iht _ _ (wm', Except.ok a) heqT) (MWInfoEq.rfl _)))

/-- C10: `FullWM::toggle_fullscreen` (whether it returns `Ok` or `Err`)
leaves `get_window_info(v)` unchanged for every window `v`: it mutates only
the `fullscreen_window` option and the focus order, never the remembered
`WindowWithInfo` records (the Rust `fullscreen` flag updates hit `Copy`
locals and are lost). -/
theorem fullwm_toggle_fullscreen_frame (fuel : Nat) (wm : FullWM) (w : Window)
    (out : FullWM × Except WMError Unit)
    (h : FullWM.toggle_fullscreenF fuel wm w = some out) :
    ∀ v, out.1.get_window_info v = wm.get_window_info v := by
  intro v
  unfold FullWM.get_window_info
  exact minimise_info_congr ((full_frame fuel).1 wm w out h) v

/-- Witness for C10: on a `FullWM` holding window 1 (added fullscreen),
un-fullscreening it leaves `get_window_info(1)` untouched — the stored
record still says `fullscreen = true` — and minimising then unminimising
window 1 makes it fullscreen again. -/
theorem fullwm_toggle_fullscreen_frame_witness :
    (FullWM.toggle_fullscreenF 5
      { minimise_wm :=
          { floating_wm :=
              { tiling_wm :=
                  { windows := [1],
                    windows_info := [(1, WindowWithInfo.new_fullscreen 1
                      { x := 10, y := 10, width := 100, height := 100 })],
                    tiles := [1],
                    screen := { width := 800, height := 600 },
                    is_focus := true },
                floats := [] },
            minimised := [] },
        fullscreen_window := some 1 } 1 =
      some ({ minimise_wm :=
                { floating_wm :=
                    { tiling_wm :=
                        { windows := [1],
                          windows_info := [(1, WindowWithInfo.new_fullscreen 1
                            { x := 10, y := 10, width := 100, height := 100 })],
                          tiles := [1],
                          screen := { width := 800, height := 600 },
                          is_focus := true },
                      floats := [] },
                  minimised := [] },
              fullscreen_window := none }, Except.ok ())) ∧
    (FullWM.get_window_info
      { minimise_wm :=
          { floating_wm :=
              { tiling_wm :=
                  { windows := [1],
                    windows_info := [(1, WindowWithInfo.new_fullscreen 1
                      { x := 10, y := 10, width := 100, height := 100 })],
                    tiles := [1],
                    screen := { width := 800, height := 600 },
                    is_focus := true },
                floats := [] },
            minimised := [] },
        fullscreen_window := none } 1 =
      FullWM.get_window_info
      { minimise_wm :=
          { floating_wm :=
              { tiling_wm :=
                  { windows := [1],
                    windows_info := [(1, WindowWithInfo.new_fullscreen 1
                      { x := 10, y := 10, width := 100, height := 100 })],
                    tiles := [1],
                    screen := { width := 800, height := 600 },
                    is_focus := true },
                floats := [] },
            minimised := [] },
        fullscreen_window := some 1 } 1) ∧
    ((FullWM.toggle_minimisedF 8
      { minimise_wm :=
          { floating_wm :=
              { tiling_wm :=
                  { windows := [1],
                    windows_info := [(1, WindowWithInfo.new_fullscreen 1
                      { x := 10, y := 10, width := 100, height := 100 })],
                    tiles := [1],
                    screen := { width := 800, height := 600 },
                    is_focus := true },
                floats := [] },
            minimised := [] },
        fullscreen_window := some 1 } 1).bind (fun p =>
      (FullWM.toggle_minimisedF 8 p.1 1).map
        (fun q => q.1.get_fullscreen_window)) = some (some 1)) := by
  refine ⟨by decide, ?_, by decide⟩
  exact fullwm_toggle_fullscreen_frame 5
    { minimise_wm :=
        { floating_wm :=
            { tiling_wm :=
                { windows := [1],
                  windows_info := [(1, WindowWithInfo.new_fullscreen 1
                    { x := 10, y := 10, width := 100, height := 100 })],
                  tiles := [1],
                  screen := { width := 800, height := 600 },
                  is_focus := true },
              floats := [] },
          minimised := [] },
      fullscreen_window := some 1 } 1
    ({ minimise_wm :=
         { floating_wm :=
             { tiling_wm :=
                 { windows := [1],
                   windows_info := [(1, WindowWithInfo.new_fullscreen 1
                     { x := 10, y := 10, width := 100, height := 100 })],
                   tiles := [1],
                   screen := { width := 800, height := 600 },
                   is_focus := true },
               floats := [] },
           minimised := [] },
       fullscreen_window := none }, Except.ok ()) (by decide) 1
